import Mathlib

/-!
# Verification of the Tiny CBase codec library

A shallow embedding of `src/tiny_cbase.c` and `src/tiny_cbase.h` from the
`tiny-cbase` repository, together with proofs about the embedded functions.

Modelling conventions:
* Raw bytes and encoded characters are both modelled as `Nat` (ASCII codes
  for characters); the C `uint8_t`/`char` ranges are carried as hypotheses
  (`b < 256`) where the reasoning needs them.
* C bit operations on values whose fields do not overlap are rendered
  arithmetically: `x >> k` as `x / 2^k`, `x & (2^k - 1)` as `x % 2^k`,
  `x << k` as `x * 2^k`, and `|` of disjoint fields as `+`.
* `uint32_t` arithmetic that can overflow (the Base85 decode accumulator)
  carries an explicit `% 2^32`; accumulators that provably stay in range
  (the 40-bit Base32 buffer inside a `uint64_t`, the 24-bit Base64 buffer)
  are left as plain `Nat`.
* Functions that report failure through a `bool` return are modelled with
  `Option` (`none` = `false`).  Null-pointer arguments are outside the
  model; the zero-length checks are kept.
* The trailing `'\0'` terminator the C encoders write after the reported
  length is not part of the returned character list.
* Fixed-count C loops (8 characters per Base32 group, 4 per Base64 group,
  5 Base85 digits) are unrolled, and loops advancing by a fixed stride are
  rendered as list recursion with one pattern per residual shape.
-/

namespace TinyCBase

/-! ## Mode flags (tiny_cbase.h) -/

def BASE16_UPPER : Nat := 0x01
def BASE16_LOWER : Nat := 0x02
def BASE16_DECODE : Nat := 0x04
def BASE32_ENC : Nat := 0x10
def BASE32_DEC : Nat := 0x20
def BASE32_ENC_NOPAD : Nat := 0x40
def BASE32_DEC_NOPAD : Nat := 0x80
def BASE58_ENC : Nat := 0x100
def BASE58_DEC : Nat := 0x200
def BASE64_STD_ENC : Nat := 0x400
def BASE64_STD_DEC : Nat := 0x800
def BASE64_URL_ENC : Nat := 0x1000
def BASE64_URL_DEC : Nat := 0x2000
def BASE64_NOPAD_ENC : Nat := 0x4000
def BASE64_NOPAD_DEC : Nat := 0x8000
def BASE85_STD_ENC : Nat := 0x10000
def BASE85_STD_DEC : Nat := 0x20000
def BASE85_EXT_ENC : Nat := 0x40000
def BASE85_EXT_DEC : Nat := 0x80000
def BASE85_Z85_ENC : Nat := 0x100000
def BASE85_Z85_DEC : Nat := 0x200000
def BASE85_IGNORE_WS : Nat := 0x400000

/-! ## Base16 -/

/-- `BASE16_ENC_TABLE_UPPER`: ASCII codes of `0123456789ABCDEF`. -/
def BASE16_ENC_TABLE_UPPER : List Nat :=
  [48, 49, 50, 51, 52, 53, 54, 55, 56, 57, 65, 66, 67, 68, 69, 70]

/-- `BASE16_ENC_TABLE_LOWER`: ASCII codes of `0123456789abcdef`. -/
def BASE16_ENC_TABLE_LOWER : List Nat :=
  [48, 49, 50, 51, 52, 53, 54, 55, 56, 57, 97, 98, 99, 100, 101, 102]

/-- `BASE16_REV_TABLE`, indexed by `ch - '0'` for `'0' (48) ≤ ch ≤ 'f' (102)`. -/
def BASE16_REV_TABLE : List Int :=
  [0, 1, 2, 3, 4, 5, 6, 7, 8, 9,
   -1, -1, -1, -1, -1, -1, -1,
   10, 11, 12, 13, 14, 15,
   -1, -1, -1, -1, -1, -1, -1, -1, -1, -1,
   -1, -1, -1, -1, -1, -1, -1, -1, -1, -1,
   -1, -1, -1, -1, -1, -1,
   10, 11, 12, 13, 14, 15]

/-- `BASE16_Encode`.  Note the C table selection: the lower-case table is
used when `mode_flags` equals `BASE16_LOWER` **or** `BASE16_UPPER`, the
upper-case table otherwise. -/
def BASE16_Encode (raw : List Nat) (mode_flags : Nat) : Option (List Nat) :=
  if raw = [] then none
  else
    let table := if mode_flags = BASE16_LOWER ∨ mode_flags = BASE16_UPPER then
        BASE16_ENC_TABLE_LOWER else BASE16_ENC_TABLE_UPPER
    some (b16encLoop table raw)
where
  /-- The per-byte loop: `(byte >> 4) & 0x0F` then `byte & 0x0F`. -/
  b16encLoop (table : List Nat) : List Nat → List Nat
    | [] => []
    | b :: rest => table.getD (b / 16 % 16) 0 :: table.getD (b % 16) 0 :: b16encLoop table rest

/-- Reverse lookup for one Base16 character, `-1` when invalid
(`(c >= '0' && c <= 'f') ? BASE16_REV_TABLE[c - '0'] : -1`). -/
def b16sym (c : Nat) : Int :=
  if 48 ≤ c ∧ c ≤ 102 then BASE16_REV_TABLE.getD (c - 48) (-1) else -1

/-- The pair loop of `BASE16_Decode`; the single-character case is
unreachable because the caller has checked the length is even. -/
def b16decLoop : List Nat → Option (List Nat)
  | [] => some []
  | [_] => none
  | c1 :: c2 :: rest =>
    if b16sym c1 < 0 ∨ b16sym c2 < 0 then none
    else
      match b16decLoop rest with
      | none => none
      | some bs => some (((b16sym c1).toNat * 16 + (b16sym c2).toNat) :: bs)

/-- `BASE16_Decode` (with `BASE_TRUNCATE_ON_NULL` disabled, its default). -/
def BASE16_Decode (s : List Nat) : Option (List Nat) :=
  if s = [] then none
  else if s.length % 2 ≠ 0 then none
  else b16decLoop s

/-! ## Base32 -/

/-- `BASE32_ENC_TABLE`: ASCII codes of `ABCDEFGHIJKLMNOPQRSTUVWXYZ234567`. -/
def BASE32_ENC_TABLE : List Nat :=
  [65, 66, 67, 68, 69, 70, 71, 72, 73, 74, 75, 76, 77, 78, 79, 80, 81, 82,
   83, 84, 85, 86, 87, 88, 89, 90, 50, 51, 52, 53, 54, 55]

/-- `BASE32_REV_TABLE`, indexed by `ch - '2'` for `'2' (50) ≤ ch ≤ 'Z' (90)`. -/
def BASE32_REV_TABLE : List Int :=
  [26, 27, 28, 29, 30, 31,
   -1, -1, -1, -1, -1, -2, -1, -1, -1,
   0, 1, 2, 3, 4, 5, 6, 7, 8, 9, 10, 11, 12, 13, 14, 15, 16, 17, 18, 19,
   20, 21, 22, 23, 24, 25]

/-- One output slot of the Base32 encode inner loop (`c = 0..7`):
a real symbol while `c < chunks`, otherwise `'='` unless no-pad. -/
def b32emit (buf chunks : Nat) (no_pad : Bool) (c : Nat) : List Nat :=
  if c < chunks then [BASE32_ENC_TABLE.getD (buf / 2 ^ (35 - c * 5) % 32) 0]
  else if no_pad then [] else [61]

/-- One 5-byte Base32 encode group: `buf` is the 40-bit big-endian window,
`rem` the number of input bytes remaining (`raw_len - i`),
`chunks = (rem*8 + 4) / 5` capped by the 8-slot loop. -/
def b32chars (b0 b1 b2 b3 b4 rem : Nat) (no_pad : Bool) : List Nat :=
  let buf := b0 * 2 ^ 32 + b1 * 2 ^ 24 + b2 * 2 ^ 16 + b3 * 2 ^ 8 + b4
  let chunks := (rem * 8 + 4) / 5
  b32emit buf chunks no_pad 0 ++ b32emit buf chunks no_pad 1 ++
  b32emit buf chunks no_pad 2 ++ b32emit buf chunks no_pad 3 ++
  b32emit buf chunks no_pad 4 ++ b32emit buf chunks no_pad 5 ++
  b32emit buf chunks no_pad 6 ++ b32emit buf chunks no_pad 7

/-- The `i += 5` loop of `BASE32_Encode`; bytes past the end read as 0. -/
def b32encLoop (no_pad : Bool) : List Nat → List Nat
  | [] => []
  | [b0] => b32chars b0 0 0 0 0 1 no_pad
  | [b0, b1] => b32chars b0 b1 0 0 0 2 no_pad
  | [b0, b1, b2] => b32chars b0 b1 b2 0 0 3 no_pad
  | [b0, b1, b2, b3] => b32chars b0 b1 b2 b3 0 4 no_pad
  | b0 :: b1 :: b2 :: b3 :: b4 :: rest =>
    b32chars b0 b1 b2 b3 b4 (5 + rest.length) no_pad ++ b32encLoop no_pad rest

/-- `BASE32_Encode`. -/
def BASE32_Encode (raw : List Nat) (mode_flags : Nat) : Option (List Nat) :=
  if raw = [] then none
  else some (b32encLoop (mode_flags &&& BASE32_ENC_NOPAD ≠ 0) raw)

/-- Reverse lookup for one Base32 character:
`(c == '=') ? 0 : (c >= '2' && c <= 'Z') ? BASE32_REV_TABLE[c - '2'] : -1`. -/
def b32sym (c : Nat) : Int :=
  if c = 61 then 0
  else if 50 ≤ c ∧ c ≤ 90 then BASE32_REV_TABLE.getD (c - 50) (-1) else -1

/-- Bytes produced from a decoded 40-bit Base32 group, gated on the
non-pad symbol count exactly as in the C. -/
def b32bytes (buf valid : Nat) : List Nat :=
  (if 2 ≤ valid then [buf / 2 ^ 32 % 256] else []) ++
  (if 4 ≤ valid then [buf / 2 ^ 24 % 256] else []) ++
  (if 5 ≤ valid then [buf / 2 ^ 16 % 256] else []) ++
  (if 7 ≤ valid then [buf / 2 ^ 8 % 256] else []) ++
  (if 8 ≤ valid then [buf % 256] else [])

/-- One unrolled 8-character Base32 decode group. -/
def b32group (c1 c2 c3 c4 c5 c6 c7 c8 : Nat) : Option (List Nat) :=
  if b32sym c1 < 0 ∨ b32sym c2 < 0 ∨ b32sym c3 < 0 ∨ b32sym c4 < 0 ∨
     b32sym c5 < 0 ∨ b32sym c6 < 0 ∨ b32sym c7 < 0 ∨ b32sym c8 < 0 then none
  else
    let buf := ((((((((b32sym c1).toNat * 32 + (b32sym c2).toNat) * 32 +
      (b32sym c3).toNat) * 32 + (b32sym c4).toNat) * 32 + (b32sym c5).toNat) * 32 +
      (b32sym c6).toNat) * 32 + (b32sym c7).toNat) * 32 + (b32sym c8).toNat)
    let valid := (if c1 ≠ 61 then 1 else 0) + (if c2 ≠ 61 then 1 else 0) +
      (if c3 ≠ 61 then 1 else 0) + (if c4 ≠ 61 then 1 else 0) +
      (if c5 ≠ 61 then 1 else 0) + (if c6 ≠ 61 then 1 else 0) +
      (if c7 ≠ 61 then 1 else 0) + (if c8 ≠ 61 then 1 else 0)
    some (b32bytes buf valid)

/-- The `i += 8` loop of `BASE32_Decode`; characters past the end read
as `'='` (61), per the `(i + j < encoded_len)` guard. -/
def b32decLoop : List Nat → Option (List Nat)
  | [] => some []
  | [c1] => b32group c1 61 61 61 61 61 61 61
  | [c1, c2] => b32group c1 c2 61 61 61 61 61 61
  | [c1, c2, c3] => b32group c1 c2 c3 61 61 61 61 61
  | [c1, c2, c3, c4] => b32group c1 c2 c3 c4 61 61 61 61
  | [c1, c2, c3, c4, c5] => b32group c1 c2 c3 c4 c5 61 61 61
  | [c1, c2, c3, c4, c5, c6] => b32group c1 c2 c3 c4 c5 c6 61 61
  | [c1, c2, c3, c4, c5, c6, c7] => b32group c1 c2 c3 c4 c5 c6 c7 61
  | c1 :: c2 :: c3 :: c4 :: c5 :: c6 :: c7 :: c8 :: rest =>
    match b32group c1 c2 c3 c4 c5 c6 c7 c8, b32decLoop rest with
    | some bs, some bs2 => some (bs ++ bs2)
    | _, _ => none

/-- `BASE32_Decode` (with `BASE_TRUNCATE_ON_NULL` disabled, its default). -/
def BASE32_Decode (s : List Nat) (mode_flags : Nat) : Option (List Nat) :=
  if s = [] then none
  else
    let no_pad := mode_flags &&& BASE32_DEC_NOPAD ≠ 0
    if ¬no_pad ∧ s.length % 8 ≠ 0 then none
    else b32decLoop s

/-! ## Base58 -/

/-- `BASE58_ENC_TABLE`: ASCII codes of
`123456789ABCDEFGHJKLMNPQRSTUVWXYZabcdefghijkmnopqrstuvwxyz`. -/
def BASE58_ENC_TABLE : List Nat :=
  [49, 50, 51, 52, 53, 54, 55, 56, 57,
   65, 66, 67, 68, 69, 70, 71, 72, 74, 75, 76, 77, 78, 80, 81, 82, 83, 84,
   85, 86, 87, 88, 89, 90,
   97, 98, 99, 100, 101, 102, 103, 104, 105, 106, 107, 109, 110, 111, 112,
   113, 114, 115, 116, 117, 118, 119, 120, 121, 122]

/-- `BASE58_REV_TABLE`, indexed by `ch - '1'` for `'1' (49) ≤ ch ≤ 'z' (122)`. -/
def BASE58_REV_TABLE : List Int :=
  [0, 1, 2, 3, 4, 5, 6, 7, 8, -1, -1, -1, -1, -1, -1, -1,
   9, 10, 11, 12, 13, 14, 15, 16, -1, 17, 18, 19, 20, 21, -1, 22,
   23, 24, 25, 26, 27, 28, 29, 30, 31, 32, -1, -1, -1, -1, -1, -1,
   33, 34, 35, 36, 37, 38, 39, 40, 41, 42, 43, -1, 44, 45, 46, 47,
   48, 49, 50, 51, 52, 53, 54, 55, 56, 57]

/-- Number of leading entries of `l` equal to `t` (the C
`while (count < len && data[count] == t) count++;` loops). -/
def leadCount (t : Nat) : List Nat → Nat
  | [] => 0
  | x :: rest => if x = t then leadCount t rest + 1 else 0

/-- One pass of the Base58 encode inner loop over the big-endian digit
buffer: the carry `val` enters at the last array slot (`j = size-1`) and
propagates toward the front; the final carry (dropped by the C `if (!j)
break;`) is returned.  The C loop stops early once `j` is at or below the
previous pass's high-water mark with zero carry; the slots it skips hold 0
and a zero carry rewrites them to `0 % 58 = 0`, so this full pass writes
the same buffer. -/
def b58encPass (buf : List Nat) (val : Nat) : List Nat × Nat :=
  match buf with
  | [] => ([], val)
  | d :: rest =>
    let r := b58encPass rest val
    let t := r.2 + 256 * d
    (t % 58 :: r.1, t / 58)

/-- The outer byte loop of `BASE58_Encode` over the digit buffer. -/
def b58encFold (buf : List Nat) : List Nat → List Nat
  | [] => buf
  | v :: rest => b58encFold (b58encPass buf v).1 rest

/-- Result of `BASE58_Encode`: argument failure (`false` with
`*out_encoded_len` untouched), capacity failure (`false` with the required
size stored), or success. -/
inductive B58Result where
  | invalid : B58Result
  | tooSmall (required : Nat) : B58Result
  | ok (out : List Nat) : B58Result
deriving DecidableEq, Repr

/-- `BASE58_Encode`; `cap` is the capacity the caller passes in
`*out_encoded_len`.  `size = BASE58_ENC_LEN(raw_len - zcount)`. -/
def BASE58_Encode (raw : List Nat) (cap : Nat) : B58Result :=
  if raw = [] then .invalid
  else
    let zcount := leadCount 0 raw
    let size := (raw.length - zcount) * 138 / 100 + 2
    let buf := b58encFold (List.replicate size 0) (raw.drop zcount)
    let j := leadCount 0 buf
    if cap ≤ zcount + (size - j) then .tooSmall (zcount + (size - j) + 1)
    else .ok (List.replicate zcount 49 ++
      (buf.drop j).map (fun d => BASE58_ENC_TABLE.getD d 0))

/-- One pass of the Base58 decode inner loop over the big-endian byte
buffer (`val += 58 * buf[j]; buf[j] = val & 0xFF; val >>= 8;` from
`j = size-1` down to 0); the final carry is discarded by the C loop end. -/
def b58decPass (buf : List Nat) (val : Nat) : List Nat × Nat :=
  match buf with
  | [] => ([], val)
  | d :: rest =>
    let r := b58decPass rest val
    let t := r.2 + 58 * d
    (t % 256 :: r.1, t / 256)

/-- Reverse lookup for one Base58 character:
`(c >= '1' && c <= 'z') ? BASE58_REV_TABLE[c - '1'] : -1`. -/
def b58sym (c : Nat) : Int :=
  if 49 ≤ c ∧ c ≤ 122 then BASE58_REV_TABLE.getD (c - 49) (-1) else -1

/-- The digit loop of `BASE58_Decode` over the byte buffer. -/
def b58decFold (buf : List Nat) : List Nat → Option (List Nat)
  | [] => some buf
  | c :: rest =>
    if b58sym c < 0 then none
    else b58decFold (b58decPass buf (b58sym c).toNat).1 rest

/-- `BASE58_Decode` (with `BASE_TRUNCATE_ON_NULL` disabled, its default).
`size = BASE58_DEC_LEN(encoded_len - zcount)`. -/
def BASE58_Decode (s : List Nat) : Option (List Nat) :=
  if s = [] then none
  else
    let zcount := leadCount 49 s
    let size := (s.length - zcount) * 733 / 1000 + 8
    match b58decFold (List.replicate size 0) (s.drop zcount) with
    | none => none
    | some buf =>
      let j := leadCount 0 buf
      some (List.replicate zcount 0 ++ buf.drop j)

/-! ## Base64 -/

/-- `BASE64_ENC_TABLE`: ASCII codes of
`ABCDEFGHIJKLMNOPQRSTUVWXYZabcdefghijklmnopqrstuvwxyz0123456789+/`. -/
def BASE64_ENC_TABLE : List Nat :=
  [65, 66, 67, 68, 69, 70, 71, 72, 73, 74, 75, 76, 77, 78, 79, 80, 81, 82,
   83, 84, 85, 86, 87, 88, 89, 90,
   97, 98, 99, 100, 101, 102, 103, 104, 105, 106, 107, 108, 109, 110, 111,
   112, 113, 114, 115, 116, 117, 118, 119, 120, 121, 122,
   48, 49, 50, 51, 52, 53, 54, 55, 56, 57, 43, 47]

/-- `BASE64_URL_SAFE_TABLE`: same with `-` `_` in place of `+` `/`. -/
def BASE64_URL_SAFE_TABLE : List Nat :=
  [65, 66, 67, 68, 69, 70, 71, 72, 73, 74, 75, 76, 77, 78, 79, 80, 81, 82,
   83, 84, 85, 86, 87, 88, 89, 90,
   97, 98, 99, 100, 101, 102, 103, 104, 105, 106, 107, 108, 109, 110, 111,
   112, 113, 114, 115, 116, 117, 118, 119, 120, 121, 122,
   48, 49, 50, 51, 52, 53, 54, 55, 56, 57, 45, 95]

/-- `BASE64_REV_TABLE`, indexed by `ch - '+'` for `'+' (43) ≤ ch ≤ 'z' (122)`. -/
def BASE64_REV_TABLE : List Int :=
  [62, -1, -1, -1, 63, 52, 53, 54, 55, 56, 57, 58, 59, 60, 61,
   -1, -1, -1, -2, -1, -1, -1, 0, 1, 2, 3, 4, 5, 6, 7, 8, 9, 10,
   11, 12, 13, 14, 15, 16, 17, 18, 19, 20, 21, 22, 23, 24, 25,
   -1, -1, -1, -1, -1, -1, 26, 27, 28, 29, 30, 31, 32, 33, 34,
   35, 36, 37, 38, 39, 40, 41, 42, 43, 44, 45, 46, 47, 48, 49,
   50, 51]

/-- `BASE64_REV_URL_SAFE_TABLE`, indexed by `ch - '-'` for
`'-' (45) ≤ ch ≤ 'z' (122)`. -/
def BASE64_REV_URL_SAFE_TABLE : List Int :=
  [62, -1, -1, 52, 53, 54, 55, 56, 57, 58, 59, 60, 61,
   -1, -1, -1, -1, -1, -1, -1, 0, 1, 2, 3, 4, 5, 6, 7, 8, 9, 10,
   11, 12, 13, 14, 15, 16, 17, 18, 19, 20, 21, 22, 23, 24, 25,
   -1, -1, -1, -1, 63, -1, 26, 27, 28, 29, 30, 31, 32, 33, 34,
   35, 36, 37, 38, 39, 40, 41, 42, 43, 44, 45, 46, 47, 48, 49,
   50, 51]

/-- One 3-byte Base64 encode group; `rem = raw_len - i`. -/
def b64chars (b0 b1 b2 rem : Nat) (tbl : List Nat) (no_pad : Bool) : List Nat :=
  let buf := b0 * 2 ^ 16 + b1 * 2 ^ 8 + b2
  [tbl.getD (buf / 2 ^ 18 % 64) 0, tbl.getD (buf / 2 ^ 12 % 64) 0] ++
  (if 1 < rem then [tbl.getD (buf / 2 ^ 6 % 64) 0]
   else if no_pad then [] else [61]) ++
  (if 2 < rem then [tbl.getD (buf % 64) 0]
   else if no_pad then [] else [61])

/-- The `i += 3` loop of `BASE64_Encode`; bytes past the end read as 0. -/
def b64encLoop (tbl : List Nat) (no_pad : Bool) : List Nat → List Nat
  | [] => []
  | [b0] => b64chars b0 0 0 1 tbl no_pad
  | [b0, b1] => b64chars b0 b1 0 2 tbl no_pad
  | b0 :: b1 :: b2 :: rest =>
    b64chars b0 b1 b2 (3 + rest.length) tbl no_pad ++ b64encLoop tbl no_pad rest

/-- `BASE64_Encode`. -/
def BASE64_Encode (raw : List Nat) (mode_flags : Nat) : Option (List Nat) :=
  if raw = [] then none
  else
    let url_safe := mode_flags &&& BASE64_URL_ENC ≠ 0
    let no_pad := mode_flags &&& BASE64_NOPAD_ENC ≠ 0
    some (b64encLoop (if url_safe then BASE64_URL_SAFE_TABLE else BASE64_ENC_TABLE)
      no_pad raw)

/-- Reverse lookup for one Base64 character; `start` is `'+'` or `'-'`
depending on the alphabet:
`(c == '=') ? 0 : ((c >= start_char && c <= 'z') ? rev_table[c - start_char] : -1)`. -/
def b64sym (start : Nat) (rev : List Int) (c : Nat) : Int :=
  if c = 61 then 0
  else if start ≤ c ∧ c ≤ 122 then rev.getD (c - start) (-1) else -1

/-- One unrolled 4-character Base64 decode group. -/
def b64group (start : Nat) (rev : List Int) (c1 c2 c3 c4 : Nat) : Option (List Nat) :=
  if b64sym start rev c1 < 0 ∨ b64sym start rev c2 < 0 ∨
     b64sym start rev c3 < 0 ∨ b64sym start rev c4 < 0 then none
  else
    let buf := (b64sym start rev c1).toNat * 2 ^ 18 +
      (b64sym start rev c2).toNat * 2 ^ 12 +
      (b64sym start rev c3).toNat * 2 ^ 6 + (b64sym start rev c4).toNat
    let valid := (if c1 ≠ 61 then 1 else 0) + (if c2 ≠ 61 then 1 else 0) +
      (if c3 ≠ 61 then 1 else 0) + (if c4 ≠ 61 then 1 else 0)
    some ((if 2 ≤ valid then [buf / 2 ^ 16 % 256] else []) ++
      (if 3 ≤ valid then [buf / 2 ^ 8 % 256] else []) ++
      (if 4 ≤ valid then [buf % 256] else []))

/-- The `i += 4` loop of `BASE64_Decode`; characters past the end read
as `'='` (61). -/
def b64decLoop (start : Nat) (rev : List Int) : List Nat → Option (List Nat)
  | [] => some []
  | [c1] => b64group start rev c1 61 61 61
  | [c1, c2] => b64group start rev c1 c2 61 61
  | [c1, c2, c3] => b64group start rev c1 c2 c3 61
  | c1 :: c2 :: c3 :: c4 :: rest =>
    match b64group start rev c1 c2 c3 c4, b64decLoop start rev rest with
    | some bs, some bs2 => some (bs ++ bs2)
    | _, _ => none

/-- `BASE64_Decode` (with `BASE_TRUNCATE_ON_NULL` disabled, its default). -/
def BASE64_Decode (s : List Nat) (mode_flags : Nat) : Option (List Nat) :=
  if s = [] then none
  else
    let isStd := mode_flags &&& BASE64_STD_DEC ≠ 0
    let isUrlSafe := mode_flags &&& BASE64_URL_DEC ≠ 0
    let noPad := mode_flags &&& BASE64_NOPAD_DEC ≠ 0
    if (isStd ∨ isUrlSafe) ∧ ¬noPad ∧ s.length % 4 ≠ 0 then none
    else b64decLoop (if isUrlSafe then 45 else 43)
      (if isUrlSafe then BASE64_REV_URL_SAFE_TABLE else BASE64_REV_TABLE) s

/-! ## Base85 -/

/-- `BASE85_Z85_ENC_TABLE`: ASCII codes of
`0..9 a..z A..Z . - : + = ^ ! / * ? & < > ( ) [ ] { } @ % $ #`. -/
def BASE85_Z85_ENC_TABLE : List Nat :=
  [48, 49, 50, 51, 52, 53, 54, 55, 56, 57,
   97, 98, 99, 100, 101, 102, 103, 104, 105, 106, 107, 108, 109, 110, 111,
   112, 113, 114, 115, 116, 117, 118, 119, 120, 121, 122,
   65, 66, 67, 68, 69, 70, 71, 72, 73, 74, 75, 76, 77, 78, 79, 80, 81, 82,
   83, 84, 85, 86, 87, 88, 89, 90,
   46, 45, 58, 43, 61, 94, 33, 47, 42, 63, 38, 60, 62, 40, 41, 91, 93,
   123, 125, 64, 37, 36, 35]

/-- `BASE85_ASCII85_REV_TABLE`, indexed by `ch - '!'` for
`'!' (33) ≤ ch ≤ 'u' (117)`; sequential because Ascii85 digits are `ch - '!'`. -/
def BASE85_ASCII85_REV_TABLE : List Int :=
  [0, 1, 2, 3, 4, 5, 6, 7, 8, 9,
   10, 11, 12, 13, 14, 15, 16, 17, 18, 19,
   20, 21, 22, 23, 24, 25, 26, 27, 28, 29,
   30, 31, 32, 33, 34, 35, 36, 37, 38, 39,
   40, 41, 42, 43, 44, 45, 46, 47, 48, 49,
   50, 51, 52, 53, 54, 55, 56, 57, 58, 59,
   60, 61, 62, 63, 64, 65, 66, 67, 68, 69,
   70, 71, 72, 73, 74, 75, 76, 77, 78, 79,
   80, 81, 82, 83, 84]

/-- `BASE85_Z85_REV_TABLE`, indexed by `ch - '!'` for
`'!' (33) ≤ ch ≤ '}' (125)`. -/
def BASE85_Z85_REV_TABLE : List Int :=
  [68, -1, 84, 83, 82, 72, -1, 75, 76, 70, 65, -1, 63, 62, 69,
   0, 1, 2, 3, 4, 5, 6, 7, 8, 9,
   64, -1, 73, 66, 74, 71, 81,
   36, 37, 38, 39, 40, 41, 42, 43, 44, 45, 46, 47, 48, 49, 50, 51, 52, 53,
   54, 55, 56, 57, 58, 59, 60, 61,
   77, -1, 78, 67, -1, -1,
   10, 11, 12, 13, 14, 15, 16, 17, 18, 19, 20, 21, 22, 23, 24, 25, 26, 27,
   28, 29, 30, 31, 32, 33, 34, 35,
   79, -1, 80]

/-- `write_u32_be`: the four big-endian bytes of a 32-bit value. -/
def be32 (v : Nat) : List Nat :=
  [v / 2 ^ 24 % 256, v / 2 ^ 16 % 256, v / 2 ^ 8 % 256, v % 256]

/-- The five base-85 digits of a 32-bit group, most significant first
(the C repeated `tmp % 85; tmp /= 85` fills `enc[4]` down to `enc[0]`). -/
def b85digits (buf : Nat) : List Nat :=
  [buf / 85 ^ 4 % 85, buf / 85 ^ 3 % 85, buf / 85 ^ 2 % 85, buf / 85 % 85,
   buf % 85]

/-- Digit-to-character step: Z85 table lookup, or `+ 33` for Ascii85. -/
def b85chr (isZ85 : Bool) (d : Nat) : Nat :=
  if isZ85 then BASE85_Z85_ENC_TABLE.getD d 0 else d + 33

/-- The block loop of `BASE85_Encode`, including the `z`/`y` shortcuts and
the partial tail (`tail + 1` characters, Ascii85 modes only; in Z85 mode a
partial tail is unreachable because the length was checked, and the C loop
simply ends). -/
def b85encLoop (isZ85 useExt : Bool) : List Nat → List Nat
  | b0 :: b1 :: b2 :: b3 :: rest =>
    let buf := b0 * 2 ^ 24 + b1 * 2 ^ 16 + b2 * 2 ^ 8 + b3
    if ¬isZ85 ∧ buf = 0 then 122 :: b85encLoop isZ85 useExt rest
    else if ¬isZ85 ∧ useExt ∧ buf = 0x20202020 then
      121 :: b85encLoop isZ85 useExt rest
    else (b85digits buf).map (b85chr isZ85) ++ b85encLoop isZ85 useExt rest
  | [] => []
  | [b0] =>
    if isZ85 then [] else ((b85digits (b0 * 2 ^ 24)).take 2).map (b85chr false)
  | [b0, b1] =>
    if isZ85 then []
    else ((b85digits (b0 * 2 ^ 24 + b1 * 2 ^ 16)).take 3).map (b85chr false)
  | [b0, b1, b2] =>
    if isZ85 then []
    else ((b85digits (b0 * 2 ^ 24 + b1 * 2 ^ 16 + b2 * 2 ^ 8)).take 4).map
      (b85chr false)

/-- `BASE85_Encode`.  Note: the source's argument guard checks the
pointers but not `encoded_len == 0`, so empty input falls through and
"succeeds" with empty output. -/
def BASE85_Encode (raw : List Nat) (mode_flags : Nat) : Option (List Nat) :=
  let isZ85 := mode_flags &&& BASE85_Z85_ENC ≠ 0
  let useExt := mode_flags &&& BASE85_EXT_ENC ≠ 0
  if isZ85 ∧ raw.length % 4 ≠ 0 then none
  else some (b85encLoop isZ85 useExt raw)

/-- C `isspace` in the default locale: space and `'\t'..'\r'`. -/
def isSpaceB (c : Nat) : Bool := c = 32 ∨ (9 ≤ c ∧ c ≤ 13)

/-- The character loop of `BASE85_Decode`: state is the output bytes, the
32-bit accumulator and the in-group character count.  `ws`, `isZ85`,
`useExt`, the reverse table and the char range are fixed before the loop,
as in the source. -/
def b85decLoop (ws isZ85 useExt : Bool) (rev : List Int) (minc maxc : Nat) :
    List Nat → List Nat → Nat → Nat → Option (List Nat × Nat × Nat)
  | [], out, value, count => some (out, value, count)
  | c :: rest, out, value, count =>
    if ws ∧ isSpaceB c then b85decLoop ws isZ85 useExt rev minc maxc rest out value count
    else if ¬isZ85 ∧ c = 122 ∧ count = 0 then
      b85decLoop ws isZ85 useExt rev minc maxc rest (out ++ be32 0) value count
    else if ¬isZ85 ∧ useExt ∧ c = 121 ∧ count = 0 then
      b85decLoop ws isZ85 useExt rev minc maxc rest (out ++ be32 0x20202020) value count
    else
      let val : Int := if minc ≤ c ∧ c ≤ maxc then rev.getD (c - minc) (-1) else -1
      if val < 0 then none
      else
        let value2 := (value * 85 + val.toNat) % 2 ^ 32
        if count + 1 = 5 then
          b85decLoop ws isZ85 useExt rev minc maxc rest (out ++ be32 value2) 0 0
        else b85decLoop ws isZ85 useExt rev minc maxc rest out value2 (count + 1)

/-- The final-block padding loop (`value = value * 85 + 84`, `uint32_t`
wrap, repeated `k` times). -/
def b85pad (value : Nat) : Nat → Nat
  | 0 => value
  | k + 1 => b85pad ((value * 85 + 84) % 2 ^ 32) k

/-- `BASE85_Decode` (with `BASE_TRUNCATE_ON_NULL` disabled, its default). -/
def BASE85_Decode (s : List Nat) (mode_flags : Nat) : Option (List Nat) :=
  if s = [] then none
  else
    let isZ85 := mode_flags &&& BASE85_Z85_DEC ≠ 0
    let useExt := mode_flags &&& BASE85_EXT_DEC ≠ 0
    if isZ85 ∧ s.length % 5 ≠ 0 then none
    else
      let ws := mode_flags &&& BASE85_IGNORE_WS ≠ 0
      let rev := if isZ85 then BASE85_Z85_REV_TABLE else BASE85_ASCII85_REV_TABLE
      let maxc := if isZ85 then 125 else 117
      match b85decLoop ws isZ85 useExt rev 33 maxc s [] 0 0 with
      | none => none
      | some (out, value, count) =>
        if ¬isZ85 ∧ 0 < count then
          let v := b85pad value (5 - count)
          some (out ++ (List.range (count - 1)).map (fun j => v / 2 ^ (24 - 8 * j) % 256))
        else if isZ85 ∧ count ≠ 0 then none
        else some out

/-! ## Capacity helpers (tiny_cbase.h) -/

/-- `BASE_GetEncodeLen`, with the length macros inlined. -/
def BASE_GetEncodeLen (data_len : Nat) (mode : Nat) : Nat :=
  if data_len = 0 then 0
  else if mode &&& (BASE16_UPPER ||| BASE16_LOWER) ≠ 0 then data_len * 2 + 2
  else if mode &&& BASE32_ENC ≠ 0 then 8 * ((data_len + 4) / 5) + 2
  else if mode &&& BASE58_ENC ≠ 0 then data_len * 138 / 100 + 2
  else if mode &&& (BASE64_STD_ENC ||| BASE64_URL_ENC ||| BASE64_NOPAD_ENC) ≠ 0 then
    4 * ((data_len + 2) / 3) + 2
  else if mode &&& (BASE85_STD_ENC ||| BASE85_EXT_ENC ||| BASE85_Z85_ENC) ≠ 0 then
    if mode &&& BASE85_Z85_ENC ≠ 0 then data_len / 4 * 5 + 2
    else (data_len + 3) / 4 * 5 + 2
  else 0

/-- `BASE_GetDecodeLen`, with the length macros inlined. -/
def BASE_GetDecodeLen (data_len : Nat) (mode : Nat) : Nat :=
  if data_len = 0 then 0
  else if mode &&& BASE16_DECODE ≠ 0 then data_len / 2 + 1
  else if mode &&& BASE32_DEC ≠ 0 then (data_len * 5 + 7) / 8 + 1
  else if mode &&& BASE58_DEC ≠ 0 then data_len * 733 / 1000 + 8
  else if mode &&& (BASE64_STD_DEC ||| BASE64_URL_DEC ||| BASE64_NOPAD_DEC) ≠ 0 then
    (data_len + 3) / 4 * 3 + 1
  else if mode &&& (BASE85_STD_DEC ||| BASE85_EXT_DEC ||| BASE85_Z85_DEC) ≠ 0 then
    if mode &&& BASE85_Z85_DEC ≠ 0 then data_len / 5 * 4 + 1
    else data_len / 5 * 4 + 4 + 1
  else 0

/-- Number of bytes `BASE32_Decode` emits for a group with `valid`
non-pad symbols (the claim's 2→1, 4→2, 5→3, 7→4, 8→5 table, read off the
five threshold tests). -/
def b32groupLen (valid : Nat) : Nat :=
  (if 2 ≤ valid then 1 else 0) + (if 4 ≤ valid then 1 else 0) +
  (if 5 ≤ valid then 1 else 0) + (if 7 ≤ valid then 1 else 0) +
  (if 8 ≤ valid then 1 else 0)

/-- The C loop's count of non-pad characters in a group
(`if (c != BASE32_PAD_CHAR) valid_chars++`). -/
def nonPadCount : List Nat → Nat
  | [] => 0
  | c :: rest => (if c ≠ 61 then 1 else 0) + nonPadCount rest

/-- Big-endian value of a digit list in base `B` (abstraction used to
reason about the Base58 digit buffers). -/
def valBE (B : Nat) (l : List Nat) : Nat := l.foldl (fun a d => a * B + d) 0

/-- Canonical big-endian base-`B` digits of `N` (no leading zero). -/
def canon (B N : Nat) : List Nat :=
  if N = 0 ∨ B < 2 then [] else canon B (N / B) ++ [N % B]
termination_by N
decreasing_by
  rename_i h
  exact Nat.div_lt_self (by omega) (by omega)

/-! ## Alphabet / reverse-table facts -/

theorem b16_upper_inv : ∀ v < 16,
    b16sym (BASE16_ENC_TABLE_UPPER.getD v 0) = (v : Int) := by decide

theorem b16_lower_inv : ∀ v < 16,
    b16sym (BASE16_ENC_TABLE_LOWER.getD v 0) = (v : Int) := by decide

theorem b32_inv : ∀ v < 32,
    b32sym (BASE32_ENC_TABLE.getD v 0) = (v : Int) ∧
    BASE32_ENC_TABLE.getD v 0 ≠ 61 := by decide

theorem b58_inv : ∀ v < 58,
    b58sym (BASE58_ENC_TABLE.getD v 0) = (v : Int) := by decide

theorem b58_chr_ne_one : ∀ v < 58, v ≠ 0 →
    BASE58_ENC_TABLE.getD v 0 ≠ 49 := by decide

theorem b64_std_inv : ∀ v < 64,
    b64sym 43 BASE64_REV_TABLE (BASE64_ENC_TABLE.getD v 0) = (v : Int) ∧
    BASE64_ENC_TABLE.getD v 0 ≠ 61 := by decide

theorem b64_url_inv : ∀ v < 64,
    b64sym 45 BASE64_REV_URL_SAFE_TABLE (BASE64_URL_SAFE_TABLE.getD v 0) = (v : Int) ∧
    BASE64_URL_SAFE_TABLE.getD v 0 ≠ 61 := by decide

theorem a85_rev_id : ∀ v < 85,
    BASE85_ASCII85_REV_TABLE.getD v (-1) = (v : Int) := by decide

theorem z85_inv : ∀ v < 85,
    33 ≤ BASE85_Z85_ENC_TABLE.getD v 0 ∧ BASE85_Z85_ENC_TABLE.getD v 0 ≤ 125 ∧
    BASE85_Z85_REV_TABLE.getD (BASE85_Z85_ENC_TABLE.getD v 0 - 33) (-1) = (v : Int) ∧
    isSpaceB (BASE85_Z85_ENC_TABLE.getD v 0) = false := by decide

/-! ## Base85 decode loop lemmas -/

/-- With the whitespace flag set, the Base85 decode loop behaves exactly
as the loop without the flag on the whitespace-stripped input. -/
theorem b85decLoop_filter (isZ85 useExt : Bool) (rev : List Int) (minc maxc : Nat)
    (s : List Nat) :
    ∀ (out : List Nat) (value count : Nat),
      b85decLoop true isZ85 useExt rev minc maxc s out value count =
      b85decLoop false isZ85 useExt rev minc maxc
        (s.filter (fun c => !isSpaceB c)) out value count := by
  induction s with
  | nil => intro out value count; simp [b85decLoop]
  | cons c rest ih =>
    intro out value count
    by_cases hc : isSpaceB c = true
    · simp [b85decLoop, hc, ih]
    · rw [Bool.not_eq_true] at hc
      simp [b85decLoop, hc, ih]

/-- In Z85 mode a successful run of the decode loop leaves an in-group
count congruent to the consumed character count mod 5. -/
theorem b85decLoop_z85_count (useExt : Bool) (rev : List Int) (minc maxc : Nat)
    (s : List Nat) :
    ∀ (out : List Nat) (value count : Nat) (r : List Nat × Nat × Nat),
      b85decLoop false true useExt rev minc maxc s out value count = some r →
      r.2.2 % 5 = (count + s.length) % 5 := by
  induction s with
  | nil =>
    intro out value count r h
    simp only [b85decLoop, Option.some.injEq] at h
    rw [← h]
    simp
  | cons c rest ih =>
    intro out value count r h
    simp only [b85decLoop] at h
    rw [if_neg (by simp), if_neg (by simp), if_neg (by simp)] at h
    by_cases hc : ((if minc ≤ c ∧ c ≤ maxc then rev.getD (c - minc) (-1) else -1) : Int) < 0
    · rw [if_pos hc] at h; exact absurd h (by simp)
    · rw [if_neg hc] at h
      by_cases h5 : count + 1 = 5
      · rw [if_pos h5] at h
        have := ih _ _ _ _ h
        simp only [List.length_cons]
        omega
      · rw [if_neg h5] at h
        have := ih _ _ _ _ h
        simp only [List.length_cons]
        omega

/-- Reduction of the `BASE85_Decode` wrapper once the three mode-flag
tests are propagated to explicit booleans. -/
theorem BASE85_Decode_reduce (s : List Nat) (hs : s ≠ []) (mode : Nat)
    (z e w : Bool)
    (hz : (mode &&& BASE85_Z85_DEC ≠ 0) = (z = true))
    (he : (mode &&& BASE85_EXT_DEC ≠ 0) = (e = true))
    (hw : (mode &&& BASE85_IGNORE_WS ≠ 0) = (w = true)) :
    BASE85_Decode s mode =
      if z = true ∧ s.length % 5 ≠ 0 then none
      else
        match b85decLoop w z e
            (if z = true then BASE85_Z85_REV_TABLE else BASE85_ASCII85_REV_TABLE)
            33 (if z = true then 125 else 117) s [] 0 0 with
        | none => none
        | some (out, value, count) =>
          if ¬(z = true) ∧ 0 < count then
            some (out ++ (List.range (count - 1)).map
              (fun j => b85pad value (5 - count) / 2 ^ (24 - 8 * j) % 256))
          else if z = true ∧ count ≠ 0 then none
          else some out := by
  simp only [BASE85_Decode, if_neg hs, hz, he, hw, Bool.decide_coe]

/-- Stepping the Ascii85 decode loop over one valid non-shortcut character
with the group not yet complete. -/
theorem b85decLoop_a85_step (useExt : Bool) (c : Nat) (rest out : List Nat)
    (value count : Nat) (hc1 : 33 ≤ c) (hc2 : c ≤ 117) (h5 : count + 1 ≠ 5) :
    b85decLoop false false useExt BASE85_ASCII85_REV_TABLE 33 117 (c :: rest) out value count =
    b85decLoop false false useExt BASE85_ASCII85_REV_TABLE 33 117 rest out
      ((value * 85 + (c - 33)) % 2 ^ 32) (count + 1) := by
  have hz : c ≠ 122 := by omega
  have hy : c ≠ 121 := by omega
  have hv : BASE85_ASCII85_REV_TABLE[c - 33]?.getD (-1) = ((c - 33 : Nat) : Int) := by
    simpa using a85_rev_id (c - 33) (by omega)
  have hnn : ¬((((c - 33 : Nat) : Int)) < 0) := not_lt.mpr (Int.natCast_nonneg _)
  simp [b85decLoop, hz, hy, hv, hc1, hc2, hnn, h5,
    show ¬(c < 33) from by omega, show ((c : Int) - 33).toNat = c - 33 from by omega]

/-- Stepping the Ascii85 decode loop over the fifth valid character of a
group: the accumulated 32-bit value is flushed as four big-endian bytes. -/
theorem b85decLoop_a85_step5 (useExt : Bool) (c : Nat) (rest out : List Nat)
    (value : Nat) (hc1 : 33 ≤ c) (hc2 : c ≤ 117) :
    b85decLoop false false useExt BASE85_ASCII85_REV_TABLE 33 117 (c :: rest) out value 4 =
    b85decLoop false false useExt BASE85_ASCII85_REV_TABLE 33 117 rest
      (out ++ be32 ((value * 85 + (c - 33)) % 2 ^ 32)) 0 0 := by
  have hz : c ≠ 122 := by omega
  have hy : c ≠ 121 := by omega
  have hv : BASE85_ASCII85_REV_TABLE[c - 33]?.getD (-1) = ((c - 33 : Nat) : Int) := by
    simpa using a85_rev_id (c - 33) (by omega)
  have hnn : ¬((((c - 33 : Nat) : Int)) < 0) := not_lt.mpr (Int.natCast_nonneg _)
  simp [b85decLoop, hz, hy, hv, hc1, hc2, hnn,
    show ¬(c < 33) from by omega, show ((c : Int) - 33).toNat = c - 33 from by omega]

/-- The length of a `b32bytes` result is determined by the non-pad
symbol count alone. -/
theorem b32bytes_length (buf valid : Nat) :
    (b32bytes buf valid).length = b32groupLen valid := by
  simp only [b32bytes, b32groupLen, List.length_append, apply_ite List.length,
    List.length_singleton, List.length_nil]

/-- Filtering out whitespace twice is the same as once. -/
theorem filter_not_space_idem (l : List Nat) :
    (l.filter (fun c => !isSpaceB c)).filter (fun c => !isSpaceB c) =
    l.filter (fun c => !isSpaceB c) := by
  induction l with
  | nil => rfl
  | cons c rest ih =>
    by_cases hc : isSpaceB c <;> simp [List.filter_cons, hc, ih]

/-- Splitting a list's length by a predicate. -/
theorem length_filter_not_add (p : Nat → Bool) (l : List Nat) :
    (l.filter (fun c => !p c)).length + (l.filter p).length = l.length := by
  induction l with
  | nil => rfl
  | cons c rest ih =>
    cases hc : p c <;> simp [List.filter_cons, hc] <;> omega

/-- With the whitespace flag set, `BASE85_Decode` agrees with decoding
the whitespace-stripped input whenever the stripped input is non-empty
and (in Z85 mode) the raw and stripped lengths agree mod 5. -/
theorem b85decode_ws_eq (mode : Nat) (z e : Bool)
    (hz : (mode &&& BASE85_Z85_DEC ≠ 0) = (z = true))
    (he : (mode &&& BASE85_EXT_DEC ≠ 0) = (e = true))
    (hw : (mode &&& BASE85_IGNORE_WS ≠ 0) = (true = true))
    (s : List Nat) (hf : s.filter (fun c => !isSpaceB c) ≠ [])
    (hlen : z = true → s.length % 5 = (s.filter (fun c => !isSpaceB c)).length % 5) :
    BASE85_Decode s mode =
    BASE85_Decode (s.filter (fun c => !isSpaceB c)) mode := by
  have hs : s ≠ [] := fun he2 => hf (by simp [he2])
  rw [BASE85_Decode_reduce s hs mode z e true hz he hw,
    BASE85_Decode_reduce _ hf mode z e true hz he hw]
  have hff := filter_not_space_idem s
  by_cases hzb : z = true
  · have hcond : (z = true ∧ s.length % 5 ≠ 0) =
        (z = true ∧ (s.filter (fun c => !isSpaceB c)).length % 5 ≠ 0) := by
      rw [hlen hzb]
    simp only [hcond]
    by_cases hc : z = true ∧ (s.filter (fun c => !isSpaceB c)).length % 5 ≠ 0
    · rw [if_pos hc, if_pos hc]
    · rw [if_neg hc, if_neg hc, b85decLoop_filter, b85decLoop_filter, hff]
  · rw [if_neg (show ¬(z = true ∧ s.length % 5 ≠ 0) from fun hc => hzb hc.1),
      if_neg (show ¬(z = true ∧
        (s.filter (fun c => !isSpaceB c)).length % 5 ≠ 0) from fun hc => hzb hc.1),
      b85decLoop_filter, b85decLoop_filter, hff]

/-! ## Round trips: Base16 -/

theorem b16encLoop_length (table raw : List Nat) :
    (BASE16_Encode.b16encLoop table raw).length = 2 * raw.length := by
  induction raw with
  | nil => rfl
  | cons b rest ih =>
    simp only [BASE16_Encode.b16encLoop, List.length_cons, ih]
    omega

theorem b16decLoop_enc (table : List Nat)
    (hT : ∀ v < 16, b16sym (table.getD v 0) = (v : Int)) :
    ∀ raw : List Nat, (∀ b ∈ raw, b < 256) →
    b16decLoop (BASE16_Encode.b16encLoop table raw) = some raw := by
  intro raw
  induction raw with
  | nil => intro _; rfl
  | cons b rest ih =>
    intro hb
    have hblt : b < 256 := hb b (by simp)
    have h1 := hT (b / 16 % 16) (by omega)
    have h2 := hT (b % 16) (by omega)
    simp only [BASE16_Encode.b16encLoop, b16decLoop, h1, h2]
    rw [if_neg (by omega), ih (fun x hx => hb x (by simp [hx]))]
    simp only [Int.toNat_natCast, Option.some.injEq, List.cons.injEq]
    exact ⟨by omega, trivial⟩

theorem b16_roundtrip (raw : List Nat) (hne : raw ≠ [])
    (hb : ∀ b ∈ raw, b < 256) (mode : Nat)
    (hm : mode = BASE16_UPPER ∨ mode = BASE16_LOWER) :
    (BASE16_Encode raw mode).bind BASE16_Decode = some raw := by
  simp only [BASE16_Encode, if_neg hne]
  rw [if_pos (hm.elim (fun h => Or.inr h) (fun h => Or.inl h))]
  simp only [Option.bind_some, Option.some_bind]
  have hlen := b16encLoop_length BASE16_ENC_TABLE_LOWER raw
  have hne2 : BASE16_Encode.b16encLoop BASE16_ENC_TABLE_LOWER raw ≠ [] := by
    intro he
    rw [he] at hlen
    simp at hlen
    exact hne hlen
  simp only [BASE16_Decode, if_neg hne2]
  rw [if_neg (by omega)]
  exact b16decLoop_enc _ b16_lower_inv raw hb

/-! ## Round trips: Base32 -/

theorem b32T (v : Nat) (hv : v < 32) :
    b32sym (BASE32_ENC_TABLE[v]?.getD 0) = (v : Int) ∧
    BASE32_ENC_TABLE[v]?.getD 0 ≠ 61 := by
  simpa using b32_inv v hv

theorem b32group_2syms (s0 s1 : Nat) (h0 : s0 < 32) (h1 : s1 < 32) :
    b32group (BASE32_ENC_TABLE[s0]?.getD 0) (BASE32_ENC_TABLE[s1]?.getD 0)
      61 61 61 61 61 61 =
    some [(s0 * 32 + s1) * 2 ^ 30 / 2 ^ 32 % 256] := by
  obtain ⟨e0, n0⟩ := b32T s0 h0
  obtain ⟨e1, n1⟩ := b32T s1 h1
  simp only [b32group, e0, e1, show b32sym 61 = 0 from rfl]
  rw [if_neg (by omega)]
  simp only [if_pos n0, if_pos n1, if_neg (show ¬((61 : Nat) ≠ 61) from by omega),
    Int.toNat_natCast, Int.toNat_zero]
  norm_num [b32bytes]
  omega

theorem b32group_4syms (s0 s1 s2 s3 : Nat)
    (h0 : s0 < 32) (h1 : s1 < 32) (h2 : s2 < 32) (h3 : s3 < 32) :
    b32group (BASE32_ENC_TABLE[s0]?.getD 0) (BASE32_ENC_TABLE[s1]?.getD 0)
      (BASE32_ENC_TABLE[s2]?.getD 0) (BASE32_ENC_TABLE[s3]?.getD 0) 61 61 61 61 =
    some [(((s0 * 32 + s1) * 32 + s2) * 32 + s3) * 2 ^ 20 / 2 ^ 32 % 256,
      (((s0 * 32 + s1) * 32 + s2) * 32 + s3) * 2 ^ 20 / 2 ^ 24 % 256] := by
  obtain ⟨e0, n0⟩ := b32T s0 h0
  obtain ⟨e1, n1⟩ := b32T s1 h1
  obtain ⟨e2, n2⟩ := b32T s2 h2
  obtain ⟨e3, n3⟩ := b32T s3 h3
  simp only [b32group, e0, e1, e2, e3, show b32sym 61 = 0 from rfl]
  rw [if_neg (by omega)]
  simp only [if_pos n0, if_pos n1, if_pos n2, if_pos n3,
    if_neg (show ¬((61 : Nat) ≠ 61) from by omega),
    Int.toNat_natCast, Int.toNat_zero]
  norm_num [b32bytes]
  omega

theorem b32group_5syms (s0 s1 s2 s3 s4 : Nat)
    (h0 : s0 < 32) (h1 : s1 < 32) (h2 : s2 < 32) (h3 : s3 < 32) (h4 : s4 < 32) :
    b32group (BASE32_ENC_TABLE[s0]?.getD 0) (BASE32_ENC_TABLE[s1]?.getD 0)
      (BASE32_ENC_TABLE[s2]?.getD 0) (BASE32_ENC_TABLE[s3]?.getD 0)
      (BASE32_ENC_TABLE[s4]?.getD 0) 61 61 61 =
    some [((((s0 * 32 + s1) * 32 + s2) * 32 + s3) * 32 + s4) * 2 ^ 15 / 2 ^ 32 % 256,
      ((((s0 * 32 + s1) * 32 + s2) * 32 + s3) * 32 + s4) * 2 ^ 15 / 2 ^ 24 % 256,
      ((((s0 * 32 + s1) * 32 + s2) * 32 + s3) * 32 + s4) * 2 ^ 15 / 2 ^ 16 % 256] := by
  obtain ⟨e0, n0⟩ := b32T s0 h0
  obtain ⟨e1, n1⟩ := b32T s1 h1
  obtain ⟨e2, n2⟩ := b32T s2 h2
  obtain ⟨e3, n3⟩ := b32T s3 h3
  obtain ⟨e4, n4⟩ := b32T s4 h4
  simp only [b32group, e0, e1, e2, e3, e4, show b32sym 61 = 0 from rfl]
  rw [if_neg (by omega)]
  simp only [if_pos n0, if_pos n1, if_pos n2, if_pos n3, if_pos n4,
    if_neg (show ¬((61 : Nat) ≠ 61) from by omega),
    Int.toNat_natCast, Int.toNat_zero]
  norm_num [b32bytes]
  omega

theorem b32group_7syms (s0 s1 s2 s3 s4 s5 s6 : Nat)
    (h0 : s0 < 32) (h1 : s1 < 32) (h2 : s2 < 32) (h3 : s3 < 32) (h4 : s4 < 32)
    (h5 : s5 < 32) (h6 : s6 < 32) :
    b32group (BASE32_ENC_TABLE[s0]?.getD 0) (BASE32_ENC_TABLE[s1]?.getD 0)
      (BASE32_ENC_TABLE[s2]?.getD 0) (BASE32_ENC_TABLE[s3]?.getD 0)
      (BASE32_ENC_TABLE[s4]?.getD 0) (BASE32_ENC_TABLE[s5]?.getD 0)
      (BASE32_ENC_TABLE[s6]?.getD 0) 61 =
    some [((((((s0 * 32 + s1) * 32 + s2) * 32 + s3) * 32 + s4) * 32 + s5) * 32 + s6) * 2 ^ 5 / 2 ^ 32 % 256,
      ((((((s0 * 32 + s1) * 32 + s2) * 32 + s3) * 32 + s4) * 32 + s5) * 32 + s6) * 2 ^ 5 / 2 ^ 24 % 256,
      ((((((s0 * 32 + s1) * 32 + s2) * 32 + s3) * 32 + s4) * 32 + s5) * 32 + s6) * 2 ^ 5 / 2 ^ 16 % 256,
      ((((((s0 * 32 + s1) * 32 + s2) * 32 + s3) * 32 + s4) * 32 + s5) * 32 + s6) * 2 ^ 5 / 2 ^ 8 % 256] := by
  obtain ⟨e0, n0⟩ := b32T s0 h0
  obtain ⟨e1, n1⟩ := b32T s1 h1
  obtain ⟨e2, n2⟩ := b32T s2 h2
  obtain ⟨e3, n3⟩ := b32T s3 h3
  obtain ⟨e4, n4⟩ := b32T s4 h4
  obtain ⟨e5, n5⟩ := b32T s5 h5
  obtain ⟨e6, n6⟩ := b32T s6 h6
  simp only [b32group, e0, e1, e2, e3, e4, e5, e6, show b32sym 61 = 0 from rfl]
  rw [if_neg (by omega)]
  simp only [if_pos n0, if_pos n1, if_pos n2, if_pos n3, if_pos n4, if_pos n5,
    if_pos n6, if_neg (show ¬((61 : Nat) ≠ 61) from by omega),
    Int.toNat_natCast, Int.toNat_zero]
  norm_num [b32bytes]

theorem b32group_8syms (s0 s1 s2 s3 s4 s5 s6 s7 : Nat)
    (h0 : s0 < 32) (h1 : s1 < 32) (h2 : s2 < 32) (h3 : s3 < 32) (h4 : s4 < 32)
    (h5 : s5 < 32) (h6 : s6 < 32) (h7 : s7 < 32) :
    b32group (BASE32_ENC_TABLE[s0]?.getD 0) (BASE32_ENC_TABLE[s1]?.getD 0)
      (BASE32_ENC_TABLE[s2]?.getD 0) (BASE32_ENC_TABLE[s3]?.getD 0)
      (BASE32_ENC_TABLE[s4]?.getD 0) (BASE32_ENC_TABLE[s5]?.getD 0)
      (BASE32_ENC_TABLE[s6]?.getD 0) (BASE32_ENC_TABLE[s7]?.getD 0) =
    some [(((((((s0 * 32 + s1) * 32 + s2) * 32 + s3) * 32 + s4) * 32 + s5) * 32 + s6) * 32 + s7) / 2 ^ 32 % 256,
      (((((((s0 * 32 + s1) * 32 + s2) * 32 + s3) * 32 + s4) * 32 + s5) * 32 + s6) * 32 + s7) / 2 ^ 24 % 256,
      (((((((s0 * 32 + s1) * 32 + s2) * 32 + s3) * 32 + s4) * 32 + s5) * 32 + s6) * 32 + s7) / 2 ^ 16 % 256,
      (((((((s0 * 32 + s1) * 32 + s2) * 32 + s3) * 32 + s4) * 32 + s5) * 32 + s6) * 32 + s7) / 2 ^ 8 % 256,
      (((((((s0 * 32 + s1) * 32 + s2) * 32 + s3) * 32 + s4) * 32 + s5) * 32 + s6) * 32 + s7) % 256] := by
  obtain ⟨e0, n0⟩ := b32T s0 h0
  obtain ⟨e1, n1⟩ := b32T s1 h1
  obtain ⟨e2, n2⟩ := b32T s2 h2
  obtain ⟨e3, n3⟩ := b32T s3 h3
  obtain ⟨e4, n4⟩ := b32T s4 h4
  obtain ⟨e5, n5⟩ := b32T s5 h5
  obtain ⟨e6, n6⟩ := b32T s6 h6
  obtain ⟨e7, n7⟩ := b32T s7 h7
  simp only [b32group, e0, e1, e2, e3, e4, e5, e6, e7]
  rw [if_neg (by omega)]
  simp only [if_pos n0, if_pos n1, if_pos n2, if_pos n3, if_pos n4, if_pos n5,
    if_pos n6, if_pos n7, Int.toNat_natCast]
  norm_num [b32bytes]

set_option maxHeartbeats 1000000 in
theorem b32decLoop_enc (np : Bool) : ∀ raw : List Nat, (∀ b ∈ raw, b < 256) →
    b32decLoop (b32encLoop np raw) = some raw := by
  intro raw
  induction raw using b32encLoop.induct np with
  | case1 => intro _; rfl
  | case2 b0 =>
    intro hb
    have h0 : b0 < 256 := hb b0 (by simp)
    simp only [b32encLoop, b32chars, b32emit]
    norm_num
    cases np
    · simp only [Bool.false_eq_true, if_false, List.cons_append, List.nil_append,
        List.append_nil, List.singleton_append]
      simp only [b32decLoop]
      rw [b32group_2syms _ _ (by omega) (by omega)]
      simp
      omega
    · simp only [if_true, List.append_nil]
      simp only [b32decLoop]
      rw [b32group_2syms _ _ (by omega) (by omega)]
      simp
      omega
  | case3 b0 b1 =>
    intro hb
    have h0 : b0 < 256 := hb b0 (by simp)
    have h1 : b1 < 256 := hb b1 (by simp)
    simp only [b32encLoop, b32chars, b32emit]
    norm_num
    cases np
    · simp only [Bool.false_eq_true, if_false, List.cons_append, List.nil_append,
        List.append_nil, List.singleton_append]
      simp only [b32decLoop]
      rw [b32group_4syms _ _ _ _ (by omega) (by omega) (by omega) (by omega)]
      simp
      omega
    · simp only [if_true, List.append_nil]
      simp only [b32decLoop]
      rw [b32group_4syms _ _ _ _ (by omega) (by omega) (by omega) (by omega)]
      simp
      omega
  | case4 b0 b1 b2 =>
    intro hb
    have h0 : b0 < 256 := hb b0 (by simp)
    have h1 : b1 < 256 := hb b1 (by simp)
    have h2 : b2 < 256 := hb b2 (by simp)
    simp only [b32encLoop, b32chars, b32emit]
    norm_num
    cases np
    · simp only [Bool.false_eq_true, if_false, List.cons_append, List.nil_append,
        List.append_nil, List.singleton_append]
      simp only [b32decLoop]
      rw [b32group_5syms _ _ _ _ _ (by omega) (by omega) (by omega) (by omega)
        (by omega)]
      simp
      omega
    · simp only [if_true, List.append_nil]
      simp only [b32decLoop]
      rw [b32group_5syms _ _ _ _ _ (by omega) (by omega) (by omega) (by omega)
        (by omega)]
      simp
      omega
  | case5 b0 b1 b2 b3 =>
    intro hb
    have h0 : b0 < 256 := hb b0 (by simp)
    have h1 : b1 < 256 := hb b1 (by simp)
    have h2 : b2 < 256 := hb b2 (by simp)
    have h3 : b3 < 256 := hb b3 (by simp)
    simp only [b32encLoop, b32chars, b32emit]
    norm_num
    cases np
    · simp only [Bool.false_eq_true, if_false, List.cons_append, List.nil_append,
        List.append_nil, List.singleton_append]
      simp only [b32decLoop]
      rw [b32group_7syms _ _ _ _ _ _ _ (by omega) (by omega) (by omega) (by omega)
        (by omega) (by omega) (by omega)]
      simp
      omega
    · simp only [if_true, List.append_nil]
      simp only [b32decLoop]
      rw [b32group_7syms _ _ _ _ _ _ _ (by omega) (by omega) (by omega) (by omega)
        (by omega) (by omega) (by omega)]
      simp
      omega
  | case6 b0 b1 b2 b3 b4 rest ih =>
    intro hb
    have h0 : b0 < 256 := hb b0 (by simp)
    have h1 : b1 < 256 := hb b1 (by simp)
    have h2 : b2 < 256 := hb b2 (by simp)
    have h3 : b3 < 256 := hb b3 (by simp)
    have h4 : b4 < 256 := hb b4 (by simp)
    have hc0 : (0 : Nat) < ((5 + rest.length) * 8 + 4) / 5 := by omega
    have hc1 : (1 : Nat) < ((5 + rest.length) * 8 + 4) / 5 := by omega
    have hc2 : (2 : Nat) < ((5 + rest.length) * 8 + 4) / 5 := by omega
    have hc3 : (3 : Nat) < ((5 + rest.length) * 8 + 4) / 5 := by omega
    have hc4 : (4 : Nat) < ((5 + rest.length) * 8 + 4) / 5 := by omega
    have hc5 : (5 : Nat) < ((5 + rest.length) * 8 + 4) / 5 := by omega
    have hc6 : (6 : Nat) < ((5 + rest.length) * 8 + 4) / 5 := by omega
    have hc7 : (7 : Nat) < ((5 + rest.length) * 8 + 4) / 5 := by omega
    simp only [b32encLoop, b32chars, b32emit, if_pos hc0, if_pos hc1, if_pos hc2,
      if_pos hc3, if_pos hc4, if_pos hc5, if_pos hc6, if_pos hc7,
      List.getD_eq_getElem?_getD, List.cons_append, List.singleton_append]
    norm_num
    simp only [b32decLoop]
    rw [b32group_8syms _ _ _ _ _ _ _ _ (by omega) (by omega) (by omega) (by omega)
      (by omega) (by omega) (by omega) (by omega),
      ih (fun x hx => hb x (by simp [hx]))]
    simp
    omega

theorem b32chars_length_pad (b0 b1 b2 b3 b4 rem : Nat) :
    (b32chars b0 b1 b2 b3 b4 rem false).length = 8 := by
  simp only [b32chars, b32emit, Bool.false_eq_true, if_false, List.length_append,
    apply_ite List.length, List.length_singleton, ite_self]

theorem b32encLoop_len_pad : ∀ raw : List Nat,
    (b32encLoop false raw).length = 8 * ((raw.length + 4) / 5) := by
  intro raw
  induction raw using b32encLoop.induct false with
  | case1 => rfl
  | case2 b0 => simp [b32encLoop, b32chars_length_pad]
  | case3 b0 b1 => simp [b32encLoop, b32chars_length_pad]
  | case4 b0 b1 b2 => simp [b32encLoop, b32chars_length_pad]
  | case5 b0 b1 b2 b3 => simp [b32encLoop, b32chars_length_pad]
  | case6 b0 b1 b2 b3 b4 rest ih =>
    simp only [b32encLoop, List.length_append, b32chars_length_pad, ih,
      List.length_cons]
    omega

theorem b32encLoop_len_nopad : ∀ raw : List Nat,
    (b32encLoop true raw).length = (raw.length * 8 + 4) / 5 := by
  intro raw
  induction raw using b32encLoop.induct true with
  | case1 => rfl
  | case2 b0 => simp only [b32encLoop, b32chars, b32emit]; norm_num
  | case3 b0 b1 => simp only [b32encLoop, b32chars, b32emit]; norm_num
  | case4 b0 b1 b2 => simp only [b32encLoop, b32chars, b32emit]; norm_num
  | case5 b0 b1 b2 b3 => simp only [b32encLoop, b32chars, b32emit]; norm_num
  | case6 b0 b1 b2 b3 b4 rest ih =>
    have hc0 : (0 : Nat) < ((5 + rest.length) * 8 + 4) / 5 := by omega
    have hc1 : (1 : Nat) < ((5 + rest.length) * 8 + 4) / 5 := by omega
    have hc2 : (2 : Nat) < ((5 + rest.length) * 8 + 4) / 5 := by omega
    have hc3 : (3 : Nat) < ((5 + rest.length) * 8 + 4) / 5 := by omega
    have hc4 : (4 : Nat) < ((5 + rest.length) * 8 + 4) / 5 := by omega
    have hc5 : (5 : Nat) < ((5 + rest.length) * 8 + 4) / 5 := by omega
    have hc6 : (6 : Nat) < ((5 + rest.length) * 8 + 4) / 5 := by omega
    have hc7 : (7 : Nat) < ((5 + rest.length) * 8 + 4) / 5 := by omega
    simp only [b32encLoop, b32chars, b32emit, if_pos hc0, if_pos hc1, if_pos hc2,
      if_pos hc3, if_pos hc4, if_pos hc5, if_pos hc6, if_pos hc7,
      List.length_append, List.length_cons, ih, List.singleton_append,
      List.length_singleton, List.length_nil]
    omega

theorem b32_roundtrip_pad (raw : List Nat) (hne : raw ≠ [])
    (hb : ∀ b ∈ raw, b < 256) :
    (BASE32_Encode raw BASE32_ENC).bind (fun e => BASE32_Decode e BASE32_DEC) =
      some raw := by
  have e1 : BASE32_ENC &&& BASE32_ENC_NOPAD = 0 := by decide
  have e2 : BASE32_DEC &&& BASE32_DEC_NOPAD = 0 := by decide
  simp only [BASE32_Encode, if_neg hne, e1,
    show (decide ((0 : Nat) ≠ 0)) = false from by decide, Option.some_bind]
  have hlen := b32encLoop_len_pad raw
  have hne2 : b32encLoop false raw ≠ [] := by
    intro he
    rw [he] at hlen
    have hr : raw.length ≠ 0 := fun h => hne (List.eq_nil_of_length_eq_zero h)
    simp only [List.length_nil] at hlen
    omega
  simp only [BASE32_Decode, e2, if_neg hne2]
  rw [if_neg (by
    rintro ⟨-, hmod⟩
    rw [hlen] at hmod
    omega)]
  exact b32decLoop_enc false raw hb

theorem b32_roundtrip_nopad (raw : List Nat) (hne : raw ≠ [])
    (hb : ∀ b ∈ raw, b < 256) :
    (BASE32_Encode raw (BASE32_ENC ||| BASE32_ENC_NOPAD)).bind
      (fun e => BASE32_Decode e (BASE32_DEC ||| BASE32_DEC_NOPAD)) = some raw := by
  have e1 : (BASE32_ENC ||| BASE32_ENC_NOPAD) &&& BASE32_ENC_NOPAD = 64 := by decide
  have e2 : (BASE32_DEC ||| BASE32_DEC_NOPAD) &&& BASE32_DEC_NOPAD = 128 := by decide
  simp only [BASE32_Encode, if_neg hne, e1,
    show (decide ((64 : Nat) ≠ 0)) = true from by decide, Option.some_bind]
  have hlen := b32encLoop_len_nopad raw
  have hne2 : b32encLoop true raw ≠ [] := by
    intro he
    rw [he] at hlen
    have hr : raw.length ≠ 0 := fun h => hne (List.eq_nil_of_length_eq_zero h)
    simp only [List.length_nil] at hlen
    omega
  simp only [BASE32_Decode, e2, if_neg hne2]
  rw [if_neg (by rintro ⟨hnp, -⟩; exact hnp (by omega))]
  exact b32decLoop_enc true raw hb

/-! ## Round trips: Base64 -/

theorem b64T_std (v : Nat) (hv : v < 64) :
    b64sym 43 BASE64_REV_TABLE (BASE64_ENC_TABLE[v]?.getD 0) = (v : Int) ∧
    BASE64_ENC_TABLE[v]?.getD 0 ≠ 61 := by
  simpa using b64_std_inv v hv

theorem b64T_url (v : Nat) (hv : v < 64) :
    b64sym 45 BASE64_REV_URL_SAFE_TABLE (BASE64_URL_SAFE_TABLE[v]?.getD 0) = (v : Int) ∧
    BASE64_URL_SAFE_TABLE[v]?.getD 0 ≠ 61 := by
  simpa using b64_url_inv v hv

theorem b64group_2syms (start : Nat) (rev : List Int) (T : List Nat)
    (hT : ∀ v : Nat, v < 64 → b64sym start rev (T[v]?.getD 0) = (v : Int) ∧
      T[v]?.getD 0 ≠ 61)
    (s0 s1 : Nat) (h0 : s0 < 64) (h1 : s1 < 64) :
    b64group start rev (T[s0]?.getD 0) (T[s1]?.getD 0) 61 61 =
    some [(s0 * 64 + s1) * 2 ^ 12 / 2 ^ 16 % 256] := by
  obtain ⟨e0, n0⟩ := hT s0 h0
  obtain ⟨e1, n1⟩ := hT s1 h1
  simp only [b64group, e0, e1, show b64sym start rev 61 = 0 from by simp [b64sym]]
  rw [if_neg (by omega)]
  simp only [if_pos n0, if_pos n1, if_neg (show ¬((61 : Nat) ≠ 61) from by omega),
    Int.toNat_natCast, Int.toNat_zero]
  norm_num
  omega

theorem b64group_3syms (start : Nat) (rev : List Int) (T : List Nat)
    (hT : ∀ v : Nat, v < 64 → b64sym start rev (T[v]?.getD 0) = (v : Int) ∧
      T[v]?.getD 0 ≠ 61)
    (s0 s1 s2 : Nat) (h0 : s0 < 64) (h1 : s1 < 64) (h2 : s2 < 64) :
    b64group start rev (T[s0]?.getD 0) (T[s1]?.getD 0) (T[s2]?.getD 0) 61 =
    some [((s0 * 64 + s1) * 64 + s2) * 2 ^ 6 / 2 ^ 16 % 256,
      ((s0 * 64 + s1) * 64 + s2) * 2 ^ 6 / 2 ^ 8 % 256] := by
  obtain ⟨e0, n0⟩ := hT s0 h0
  obtain ⟨e1, n1⟩ := hT s1 h1
  obtain ⟨e2, n2⟩ := hT s2 h2
  simp only [b64group, e0, e1, e2, show b64sym start rev 61 = 0 from by simp [b64sym]]
  rw [if_neg (by omega)]
  simp only [if_pos n0, if_pos n1, if_pos n2,
    if_neg (show ¬((61 : Nat) ≠ 61) from by omega),
    Int.toNat_natCast, Int.toNat_zero]
  norm_num
  omega

theorem b64group_4syms (start : Nat) (rev : List Int) (T : List Nat)
    (hT : ∀ v : Nat, v < 64 → b64sym start rev (T[v]?.getD 0) = (v : Int) ∧
      T[v]?.getD 0 ≠ 61)
    (s0 s1 s2 s3 : Nat) (h0 : s0 < 64) (h1 : s1 < 64) (h2 : s2 < 64)
    (h3 : s3 < 64) :
    b64group start rev (T[s0]?.getD 0) (T[s1]?.getD 0) (T[s2]?.getD 0)
      (T[s3]?.getD 0) =
    some [(((s0 * 64 + s1) * 64 + s2) * 64 + s3) / 2 ^ 16 % 256,
      (((s0 * 64 + s1) * 64 + s2) * 64 + s3) / 2 ^ 8 % 256,
      (((s0 * 64 + s1) * 64 + s2) * 64 + s3) % 256] := by
  obtain ⟨e0, n0⟩ := hT s0 h0
  obtain ⟨e1, n1⟩ := hT s1 h1
  obtain ⟨e2, n2⟩ := hT s2 h2
  obtain ⟨e3, n3⟩ := hT s3 h3
  simp only [b64group, e0, e1, e2, e3]
  rw [if_neg (by omega)]
  simp only [if_pos n0, if_pos n1, if_pos n2, if_pos n3, Int.toNat_natCast]
  norm_num
  omega

set_option maxHeartbeats 1000000 in
theorem b64decLoop_enc (start : Nat) (rev : List Int) (T : List Nat)
    (hT : ∀ v : Nat, v < 64 → b64sym start rev (T[v]?.getD 0) = (v : Int) ∧
      T[v]?.getD 0 ≠ 61) (np : Bool) :
    ∀ raw : List Nat, (∀ b ∈ raw, b < 256) →
    b64decLoop start rev (b64encLoop T np raw) = some raw := by
  intro raw
  induction raw using b64encLoop.induct T np with
  | case1 => intro _; rfl
  | case2 b0 =>
    intro hb
    have h0 : b0 < 256 := hb b0 (by simp)
    simp only [b64encLoop, b64chars, List.getD_eq_getElem?_getD]
    norm_num
    cases np
    · simp only [Bool.false_eq_true, if_false, List.cons_append, List.nil_append,
        List.append_nil, List.singleton_append]
      simp only [b64decLoop]
      rw [b64group_2syms start rev T hT _ _ (by omega) (by omega)]
      simp
      omega
    · simp only [if_true, List.append_nil]
      simp only [b64decLoop]
      rw [b64group_2syms start rev T hT _ _ (by omega) (by omega)]
      simp
      omega
  | case3 b0 b1 =>
    intro hb
    have h0 : b0 < 256 := hb b0 (by simp)
    have h1 : b1 < 256 := hb b1 (by simp)
    simp only [b64encLoop, b64chars, List.getD_eq_getElem?_getD]
    norm_num
    cases np
    · simp only [Bool.false_eq_true, if_false, List.cons_append, List.nil_append,
        List.append_nil, List.singleton_append]
      simp only [b64decLoop]
      rw [b64group_3syms start rev T hT _ _ _ (by omega) (by omega) (by omega)]
      simp
      omega
    · simp only [if_true, List.append_nil]
      simp only [b64decLoop]
      rw [b64group_3syms start rev T hT _ _ _ (by omega) (by omega) (by omega)]
      simp
      omega
  | case4 b0 b1 b2 rest ih =>
    intro hb
    have h0 : b0 < 256 := hb b0 (by simp)
    have h1 : b1 < 256 := hb b1 (by simp)
    have h2 : b2 < 256 := hb b2 (by simp)
    have hr1 : (1 : Nat) < 3 + rest.length := by omega
    have hr2 : (2 : Nat) < 3 + rest.length := by omega
    simp only [b64encLoop, b64chars, List.getD_eq_getElem?_getD, if_pos hr1,
      if_pos hr2, List.cons_append, List.singleton_append]
    norm_num
    simp only [b64decLoop]
    rw [b64group_4syms start rev T hT _ _ _ _ (by omega) (by omega) (by omega)
      (by omega), ih (fun x hx => hb x (by simp [hx]))]
    simp
    omega

theorem b64chars_length_pad (b0 b1 b2 rem : Nat) (T : List Nat) :
    (b64chars b0 b1 b2 rem T false).length = 4 := by
  simp only [b64chars, Bool.false_eq_true, if_false, List.length_append,
    apply_ite List.length, List.length_singleton, List.length_nil, ite_self,
    List.length_cons]

theorem b64encLoop_len_pad (T : List Nat) : ∀ raw : List Nat,
    (b64encLoop T false raw).length = 4 * ((raw.length + 2) / 3) := by
  intro raw
  induction raw using b64encLoop.induct T false with
  | case1 => rfl
  | case2 b0 => simp [b64encLoop, b64chars_length_pad]
  | case3 b0 b1 => simp [b64encLoop, b64chars_length_pad]
  | case4 b0 b1 b2 rest ih =>
    simp only [b64encLoop, List.length_append, b64chars_length_pad, ih,
      List.length_cons]
    omega

theorem b64encLoop_len_nopad (T : List Nat) : ∀ raw : List Nat,
    (b64encLoop T true raw).length = (raw.length * 4 + 2) / 3 := by
  intro raw
  induction raw using b64encLoop.induct T true with
  | case1 => rfl
  | case2 b0 => simp only [b64encLoop, b64chars]; norm_num
  | case3 b0 b1 => simp only [b64encLoop, b64chars]; norm_num
  | case4 b0 b1 b2 rest ih =>
    have hr1 : (1 : Nat) < 3 + rest.length := by omega
    have hr2 : (2 : Nat) < 3 + rest.length := by omega
    simp only [b64encLoop, b64chars, if_pos hr1, if_pos hr2, List.length_append,
      List.length_cons, ih, List.singleton_append, List.length_singleton,
      List.length_nil]
    omega

theorem b64_roundtrip_std_pad (raw : List Nat) (hne : raw ≠ [])
    (hb : ∀ b ∈ raw, b < 256) :
    (BASE64_Encode raw BASE64_STD_ENC).bind
      (fun e => BASE64_Decode e BASE64_STD_DEC) = some raw := by
  have e1 : BASE64_STD_ENC &&& BASE64_URL_ENC = 0 := by decide
  have e2 : BASE64_STD_ENC &&& BASE64_NOPAD_ENC = 0 := by decide
  have d1 : BASE64_STD_DEC &&& BASE64_STD_DEC = 2048 := by decide
  have d2 : BASE64_STD_DEC &&& BASE64_URL_DEC = 0 := by decide
  have d3 : BASE64_STD_DEC &&& BASE64_NOPAD_DEC = 0 := by decide
  simp only [BASE64_Encode, if_neg hne, e1, e2,
    show (decide ((0 : Nat) ≠ 0)) = false from by decide,
    show (decide False) = false from by decide,
    show ((0 : Nat) ≠ 0) = False from by simp, if_false, Option.some_bind]
  have hlen := b64encLoop_len_pad BASE64_ENC_TABLE raw
  have hne2 : b64encLoop BASE64_ENC_TABLE false raw ≠ [] := by
    intro he
    rw [he] at hlen
    have hr : raw.length ≠ 0 := fun h => hne (List.eq_nil_of_length_eq_zero h)
    simp only [List.length_nil] at hlen
    omega
  simp only [BASE64_Decode, d1, d2, d3, if_neg hne2,
    show (decide False) = false from by decide,
    show ((0 : Nat) ≠ 0) = False from by simp, if_false]
  rw [if_neg (by
    rintro ⟨-, -, hmod⟩
    rw [hlen] at hmod
    omega)]
  exact b64decLoop_enc 43 BASE64_REV_TABLE BASE64_ENC_TABLE b64T_std false raw hb

theorem b64_roundtrip_std_nopad (raw : List Nat) (hne : raw ≠ [])
    (hb : ∀ b ∈ raw, b < 256) :
    (BASE64_Encode raw (BASE64_STD_ENC ||| BASE64_NOPAD_ENC)).bind
      (fun e => BASE64_Decode e (BASE64_STD_DEC ||| BASE64_NOPAD_DEC)) =
      some raw := by
  have e1 : (BASE64_STD_ENC ||| BASE64_NOPAD_ENC) &&& BASE64_URL_ENC = 0 := by decide
  have e2 : (BASE64_STD_ENC ||| BASE64_NOPAD_ENC) &&& BASE64_NOPAD_ENC = 16384 := by
    decide
  have d1 : (BASE64_STD_DEC ||| BASE64_NOPAD_DEC) &&& BASE64_STD_DEC = 2048 := by
    decide
  have d2 : (BASE64_STD_DEC ||| BASE64_NOPAD_DEC) &&& BASE64_URL_DEC = 0 := by decide
  have d3 : (BASE64_STD_DEC ||| BASE64_NOPAD_DEC) &&& BASE64_NOPAD_DEC = 32768 := by
    decide
  simp only [BASE64_Encode, if_neg hne, e1, e2,
    show (decide ((0 : Nat) ≠ 0)) = false from by decide,
    show (decide ((16384 : Nat) ≠ 0)) = true from by decide,
    show (decide False) = false from by decide,
    show ((0 : Nat) ≠ 0) = False from by simp, if_false, Option.some_bind]
  have hlen := b64encLoop_len_nopad BASE64_ENC_TABLE raw
  have hne2 : b64encLoop BASE64_ENC_TABLE true raw ≠ [] := by
    intro he
    rw [he] at hlen
    have hr : raw.length ≠ 0 := fun h => hne (List.eq_nil_of_length_eq_zero h)
    simp only [List.length_nil] at hlen
    omega
  simp only [BASE64_Decode, d1, d2, d3, if_neg hne2,
    show (decide False) = false from by decide,
    show ((0 : Nat) ≠ 0) = False from by simp, if_false]
  rw [if_neg (by rintro ⟨-, hnp, -⟩; exact hnp (by omega))]
  exact b64decLoop_enc 43 BASE64_REV_TABLE BASE64_ENC_TABLE b64T_std true raw hb

theorem b64_roundtrip_url_pad (raw : List Nat) (hne : raw ≠ [])
    (hb : ∀ b ∈ raw, b < 256) :
    (BASE64_Encode raw BASE64_URL_ENC).bind
      (fun e => BASE64_Decode e BASE64_URL_DEC) = some raw := by
  have e1 : BASE64_URL_ENC &&& BASE64_URL_ENC = 4096 := by decide
  have e2 : BASE64_URL_ENC &&& BASE64_NOPAD_ENC = 0 := by decide
  have d1 : BASE64_URL_DEC &&& BASE64_STD_DEC = 0 := by decide
  have d2 : BASE64_URL_DEC &&& BASE64_URL_DEC = 8192 := by decide
  have d3 : BASE64_URL_DEC &&& BASE64_NOPAD_DEC = 0 := by decide
  simp only [BASE64_Encode, if_neg hne, e1, e2,
    show (decide ((0 : Nat) ≠ 0)) = false from by decide,
    show (decide False) = false from by decide,
    show ((4096 : Nat) ≠ 0) = True from by simp,
    show ((0 : Nat) ≠ 0) = False from by simp, if_false, if_true, Option.some_bind]
  have hlen := b64encLoop_len_pad BASE64_URL_SAFE_TABLE raw
  have hne2 : b64encLoop BASE64_URL_SAFE_TABLE false raw ≠ [] := by
    intro he
    rw [he] at hlen
    have hr : raw.length ≠ 0 := fun h => hne (List.eq_nil_of_length_eq_zero h)
    simp only [List.length_nil] at hlen
    omega
  simp only [BASE64_Decode, d1, d2, d3, if_neg hne2,
    show (decide False) = false from by decide,
    show ((8192 : Nat) ≠ 0) = True from by simp,
    show ((0 : Nat) ≠ 0) = False from by simp, if_false, if_true]
  rw [if_neg (by
    rintro ⟨-, -, hmod⟩
    rw [hlen] at hmod
    omega)]
  exact b64decLoop_enc 45 BASE64_REV_URL_SAFE_TABLE BASE64_URL_SAFE_TABLE b64T_url
    false raw hb

theorem b64_roundtrip_url_nopad (raw : List Nat) (hne : raw ≠ [])
    (hb : ∀ b ∈ raw, b < 256) :
    (BASE64_Encode raw (BASE64_URL_ENC ||| BASE64_NOPAD_ENC)).bind
      (fun e => BASE64_Decode e (BASE64_URL_DEC ||| BASE64_NOPAD_DEC)) =
      some raw := by
  have e1 : (BASE64_URL_ENC ||| BASE64_NOPAD_ENC) &&& BASE64_URL_ENC = 4096 := by
    decide
  have e2 : (BASE64_URL_ENC ||| BASE64_NOPAD_ENC) &&& BASE64_NOPAD_ENC = 16384 := by
    decide
  have d1 : (BASE64_URL_DEC ||| BASE64_NOPAD_DEC) &&& BASE64_STD_DEC = 0 := by decide
  have d2 : (BASE64_URL_DEC ||| BASE64_NOPAD_DEC) &&& BASE64_URL_DEC = 8192 := by
    decide
  have d3 : (BASE64_URL_DEC ||| BASE64_NOPAD_DEC) &&& BASE64_NOPAD_DEC = 32768 := by
    decide
  simp only [BASE64_Encode, if_neg hne, e1, e2,
    show (decide ((16384 : Nat) ≠ 0)) = true from by decide,
    show (decide False) = false from by decide,
    show ((4096 : Nat) ≠ 0) = True from by simp,
    show ((0 : Nat) ≠ 0) = False from by simp, if_false, if_true, Option.some_bind]
  have hlen := b64encLoop_len_nopad BASE64_URL_SAFE_TABLE raw
  have hne2 : b64encLoop BASE64_URL_SAFE_TABLE true raw ≠ [] := by
    intro he
    rw [he] at hlen
    have hr : raw.length ≠ 0 := fun h => hne (List.eq_nil_of_length_eq_zero h)
    simp only [List.length_nil] at hlen
    omega
  simp only [BASE64_Decode, d1, d2, d3, if_neg hne2,
    show (decide False) = false from by decide,
    show ((8192 : Nat) ≠ 0) = True from by simp,
    show ((0 : Nat) ≠ 0) = False from by simp, if_false, if_true]
  rw [if_neg (by rintro ⟨-, hnp, -⟩; exact hnp (by omega))]
  exact b64decLoop_enc 45 BASE64_REV_URL_SAFE_TABLE BASE64_URL_SAFE_TABLE b64T_url
    true raw hb

/-! ## Round trips: Base85 -/

theorem b85chain (n : Nat) (h : n < 4294967296) :
    ((((n / 52200625 % 85 % 4294967296 * 85 + n / 614125 % 85) % 4294967296 * 85 +
      n / 7225 % 85) % 4294967296 * 85 + n / 85 % 85) % 4294967296 * 85 + n % 85) %
      4294967296 = n := by
  have d4 : n / 52200625 % 85 = n / 52200625 := Nat.mod_eq_of_lt (by omega)
  have m4 : n / 52200625 % 4294967296 = n / 52200625 := Nat.mod_eq_of_lt (by omega)
  have s3 : n / 52200625 * 85 + n / 614125 % 85 = n / 614125 := by omega
  have m3 : n / 614125 % 4294967296 = n / 614125 := Nat.mod_eq_of_lt (by omega)
  have s2 : n / 614125 * 85 + n / 7225 % 85 = n / 7225 := by omega
  have m2 : n / 7225 % 4294967296 = n / 7225 := Nat.mod_eq_of_lt (by omega)
  have s1 : n / 7225 * 85 + n / 85 % 85 = n / 85 := by omega
  have m1 : n / 85 % 4294967296 = n / 85 := Nat.mod_eq_of_lt (by omega)
  have s0 : n / 85 * 85 + n % 85 = n := by omega
  have m0 : n % 4294967296 = n := Nat.mod_eq_of_lt h
  rw [d4, m4, s3, m3, s2, m2, s1, m1, s0, m0]

theorem z85T (d : Nat) (hd : d < 85) :
    33 ≤ BASE85_Z85_ENC_TABLE[d]?.getD 0 ∧ BASE85_Z85_ENC_TABLE[d]?.getD 0 ≤ 125 ∧
    BASE85_Z85_REV_TABLE[BASE85_Z85_ENC_TABLE[d]?.getD 0 - 33]?.getD (-1) = (d : Int) ∧
    isSpaceB (BASE85_Z85_ENC_TABLE[d]?.getD 0) = false := by
  simpa using z85_inv d hd

theorem b85decLoop_z85_step (useExt : Bool) (d : Nat) (hd : d < 85)
    (rest out : List Nat) (value count : Nat) (h5 : count + 1 ≠ 5) :
    b85decLoop false true useExt BASE85_Z85_REV_TABLE 33 125
      (BASE85_Z85_ENC_TABLE[d]?.getD 0 :: rest) out value count =
    b85decLoop false true useExt BASE85_Z85_REV_TABLE 33 125 rest out
      ((value * 85 + d) % 2 ^ 32) (count + 1) := by
  obtain ⟨hmin, hmax, hrev, -⟩ := z85T d hd
  simp [b85decLoop, hmin, hmax, hrev, h5, show ¬((d : Int) < 0) from by omega]

theorem b85decLoop_z85_step5 (useExt : Bool) (d : Nat) (hd : d < 85)
    (rest out : List Nat) (value : Nat) :
    b85decLoop false true useExt BASE85_Z85_REV_TABLE 33 125
      (BASE85_Z85_ENC_TABLE[d]?.getD 0 :: rest) out value 4 =
    b85decLoop false true useExt BASE85_Z85_REV_TABLE 33 125 rest
      (out ++ be32 ((value * 85 + d) % 2 ^ 32)) 0 0 := by
  obtain ⟨hmin, hmax, hrev, -⟩ := z85T d hd
  simp [b85decLoop, hmin, hmax, hrev, show ¬((d : Int) < 0) from by omega]

theorem b85a85_group (useExt : Bool) (b0 b1 b2 b3 : Nat) (h0 : b0 < 256)
    (h1 : b1 < 256) (h2 : b2 < 256) (h3 : b3 < 256) (rest out : List Nat) :
    b85decLoop false false useExt BASE85_ASCII85_REV_TABLE 33 117
      ((b85digits (b0 * 2 ^ 24 + b1 * 2 ^ 16 + b2 * 2 ^ 8 + b3)).map (b85chr false)
        ++ rest) out 0 0 =
    b85decLoop false false useExt BASE85_ASCII85_REV_TABLE 33 117 rest
      (out ++ [b0, b1, b2, b3]) 0 0 := by
  simp only [b85digits, b85chr, List.map_cons, List.map_nil, Bool.false_eq_true,
    if_false, List.cons_append, List.nil_append]
  rw [b85decLoop_a85_step useExt _ _ _ _ _ (by omega) (by omega) (by omega),
    b85decLoop_a85_step useExt _ _ _ _ _ (by omega) (by omega) (by omega),
    b85decLoop_a85_step useExt _ _ _ _ _ (by omega) (by omega) (by omega),
    b85decLoop_a85_step useExt _ _ _ _ _ (by omega) (by omega) (by omega),
    b85decLoop_a85_step5 useExt _ _ _ _ (by omega) (by omega)]
  congr 1
  simp only [be32]
  norm_num
  rw [b85chain (b0 * 16777216 + b1 * 65536 + b2 * 256 + b3) (by omega)]
  refine ⟨by omega, by omega, by omega, ?_⟩
  rw [← Nat.mod_mod_of_dvd _ (show (256 : Nat) ∣ 4294967296 from by norm_num),
    b85chain (b0 * 16777216 + b1 * 65536 + b2 * 256 + b3) (by omega)]
  omega

theorem b85z85_group (useExt : Bool) (b0 b1 b2 b3 : Nat) (h0 : b0 < 256)
    (h1 : b1 < 256) (h2 : b2 < 256) (h3 : b3 < 256) (rest out : List Nat) :
    b85decLoop false true useExt BASE85_Z85_REV_TABLE 33 125
      ((b85digits (b0 * 2 ^ 24 + b1 * 2 ^ 16 + b2 * 2 ^ 8 + b3)).map (b85chr true)
        ++ rest) out 0 0 =
    b85decLoop false true useExt BASE85_Z85_REV_TABLE 33 125 rest
      (out ++ [b0, b1, b2, b3]) 0 0 := by
  simp only [b85digits, b85chr, List.map_cons, List.map_nil, if_true,
    List.getD_eq_getElem?_getD, List.cons_append, List.nil_append]
  rw [b85decLoop_z85_step useExt _ (by omega) _ _ _ _ (by omega),
    b85decLoop_z85_step useExt _ (by omega) _ _ _ _ (by omega),
    b85decLoop_z85_step useExt _ (by omega) _ _ _ _ (by omega),
    b85decLoop_z85_step useExt _ (by omega) _ _ _ _ (by omega),
    b85decLoop_z85_step5 useExt _ (by omega) _ _ _]
  congr 1
  simp only [be32]
  norm_num
  rw [b85chain (b0 * 16777216 + b1 * 65536 + b2 * 256 + b3) (by omega)]
  refine ⟨by omega, by omega, by omega, ?_⟩
  rw [← Nat.mod_mod_of_dvd _ (show (256 : Nat) ∣ 4294967296 from by norm_num),
    b85chain (b0 * 16777216 + b1 * 65536 + b2 * 256 + b3) (by omega)]
  omega

theorem b85a85_z (useExt : Bool) (rest out : List Nat) :
    b85decLoop false false useExt BASE85_ASCII85_REV_TABLE 33 117 (122 :: rest)
      out 0 0 =
    b85decLoop false false useExt BASE85_ASCII85_REV_TABLE 33 117 rest
      (out ++ [0, 0, 0, 0]) 0 0 := by
  simp [b85decLoop, be32, isSpaceB]

theorem b85a85_y (rest out : List Nat) :
    b85decLoop false false true BASE85_ASCII85_REV_TABLE 33 117 (121 :: rest)
      out 0 0 =
    b85decLoop false false true BASE85_ASCII85_REV_TABLE 33 117 rest
      (out ++ [32, 32, 32, 32]) 0 0 := by
  simp [b85decLoop, be32, isSpaceB]

theorem b85encLoop_append (isZ85 useExt : Bool) : ∀ (n : Nat) (f t : List Nat),
    f.length = n → f.length % 4 = 0 →
    b85encLoop isZ85 useExt (f ++ t) =
    b85encLoop isZ85 useExt f ++ b85encLoop isZ85 useExt t := by
  intro n
  induction n using Nat.strong_induction_on with
  | _ n ih =>
    intro f t hlen hmod
    rcases f with - | ⟨b0, - | ⟨b1, - | ⟨b2, - | ⟨b3, rest⟩⟩⟩⟩
    · simp [b85encLoop]
    · simp at hmod
    · simp at hmod
    · simp at hmod
    · have hr : rest.length % 4 = 0 := by
        simp only [List.length_cons] at hmod
        omega
      have hn : rest.length < n := by
        simp only [List.length_cons] at hlen
        omega
      have ihr := ih rest.length hn rest t rfl hr
      simp only [List.cons_append]
      rw [b85encLoop.eq_1, b85encLoop.eq_1]
      split_ifs <;> simp [ihr]

theorem b85a85_loop (useExt : Bool) : ∀ (n : Nat) (f rest out : List Nat),
    f.length = n → (∀ b ∈ f, b < 256) → f.length % 4 = 0 →
    b85decLoop false false useExt BASE85_ASCII85_REV_TABLE 33 117
      (b85encLoop false useExt f ++ rest) out 0 0 =
    b85decLoop false false useExt BASE85_ASCII85_REV_TABLE 33 117 rest
      (out ++ f) 0 0 := by
  intro n
  induction n using Nat.strong_induction_on with
  | _ n ih =>
    intro f rest out hlen hb hmod
    rcases f with - | ⟨b0, - | ⟨b1, - | ⟨b2, - | ⟨b3, rest2⟩⟩⟩⟩
    · simp [b85encLoop]
    · simp at hmod
    · simp at hmod
    · simp at hmod
    · have h0 : b0 < 256 := hb b0 (by simp)
      have h1 : b1 < 256 := hb b1 (by simp)
      have h2 : b2 < 256 := hb b2 (by simp)
      have h3 : b3 < 256 := hb b3 (by simp)
      have hr : rest2.length % 4 = 0 := by
        simp only [List.length_cons] at hmod
        omega
      have hn : rest2.length < n := by
        simp only [List.length_cons] at hlen
        omega
      have hbr : ∀ b ∈ rest2, b < 256 := fun x hx => hb x (by simp [hx])
      rw [b85encLoop.eq_1]
      simp only [Bool.false_eq_true, not_false_iff, true_and]
      split_ifs with hz hy
      · -- all-zero group encoded as 'z'
        have hbuf := hz
        have e0 : b0 = 0 := by omega
        have e1 : b1 = 0 := by omega
        have e2 : b2 = 0 := by omega
        have e3 : b3 = 0 := by omega
        subst e0; subst e1; subst e2; subst e3
        rw [List.cons_append, b85a85_z,
          ih rest2.length hn rest2 rest (out ++ [0, 0, 0, 0]) rfl hbr hr]
        simp
      · -- all-space group encoded as 'y' (Extended mode)
        obtain ⟨hext, hbuf⟩ := hy
        subst hext
        have e0 : b0 = 32 := by omega
        have e1 : b1 = 32 := by omega
        have e2 : b2 = 32 := by omega
        have e3 : b3 = 32 := by omega
        subst e0; subst e1; subst e2; subst e3
        rw [List.cons_append, b85a85_y,
          ih rest2.length hn rest2 rest (out ++ [32, 32, 32, 32]) rfl hbr hr]
        simp
      · rw [List.append_assoc, b85a85_group useExt b0 b1 b2 b3 h0 h1 h2 h3,
          ih rest2.length hn rest2 rest (out ++ [b0, b1, b2, b3]) rfl hbr hr]
        simp

theorem b85z85_loop (useExt : Bool) : ∀ (n : Nat) (f rest out : List Nat),
    f.length = n → (∀ b ∈ f, b < 256) → f.length % 4 = 0 →
    b85decLoop false true useExt BASE85_Z85_REV_TABLE 33 125
      (b85encLoop true useExt f ++ rest) out 0 0 =
    b85decLoop false true useExt BASE85_Z85_REV_TABLE 33 125 rest
      (out ++ f) 0 0 := by
  intro n
  induction n using Nat.strong_induction_on with
  | _ n ih =>
    intro f rest out hlen hb hmod
    rcases f with - | ⟨b0, - | ⟨b1, - | ⟨b2, - | ⟨b3, rest2⟩⟩⟩⟩
    · simp [b85encLoop]
    · simp at hmod
    · simp at hmod
    · simp at hmod
    · have h0 : b0 < 256 := hb b0 (by simp)
      have h1 : b1 < 256 := hb b1 (by simp)
      have h2 : b2 < 256 := hb b2 (by simp)
      have h3 : b3 < 256 := hb b3 (by simp)
      have hr : rest2.length % 4 = 0 := by
        simp only [List.length_cons] at hmod
        omega
      have hn : rest2.length < n := by
        simp only [List.length_cons] at hlen
        omega
      have hbr : ∀ b ∈ rest2, b < 256 := fun x hx => hb x (by simp [hx])
      rw [b85encLoop.eq_1,
        if_neg (show ¬(¬(true : Bool) = true ∧
          b0 * 2 ^ 24 + b1 * 2 ^ 16 + b2 * 2 ^ 8 + b3 = 0) from by simp),
        if_neg (show ¬(¬(true : Bool) = true ∧ useExt = true ∧
          b0 * 2 ^ 24 + b1 * 2 ^ 16 + b2 * 2 ^ 8 + b3 = 538976288) from by simp)]
      rw [List.append_assoc, b85z85_group useExt b0 b1 b2 b3 h0 h1 h2 h3,
        ih rest2.length hn rest2 rest (out ++ [b0, b1, b2, b3]) rfl hbr hr]
      simp

/-! ## Claims -/

/-- Claim C2 (code bug evidence): `BASE16_Encode` with the `BASE16_UPPER`
flag emits the **lower-case** hex expansion (byte `0xAB` encodes to
`"ab"`, ASCII `[97, 98]`, not `"AB"` = `[65, 66]`), because the C table
selection uses the lower table when the mode equals `BASE16_LOWER` *or*
`BASE16_UPPER`; the upper table is only reachable through other flag
values.  The reported length is still twice the input length. -/
theorem claim_C2 :
    BASE16_Encode [171] BASE16_UPPER = some [97, 98] ∧
    BASE16_Encode [171] BASE16_LOWER = some [97, 98] ∧
    BASE16_Encode [171] 0 = some [65, 66] ∧
    (BASE16_Encode [171] BASE16_UPPER).map List.length = some 2 := by decide

set_option maxRecDepth 10000 in
/-- Claim C3 (code bug evidence): every encode/decode entry point rejects
empty input except `BASE85_Encode`, whose argument guard omits the
`encoded_len == 0` check and therefore "succeeds" with empty output in
all three variants. -/
theorem claim_C3 :
    BASE16_Encode [] BASE16_UPPER = none ∧
    BASE16_Encode [] BASE16_LOWER = none ∧
    BASE16_Decode [] = none ∧
    BASE32_Encode [] BASE32_ENC = none ∧
    BASE32_Encode [] (BASE32_ENC ||| BASE32_ENC_NOPAD) = none ∧
    BASE32_Decode [] BASE32_DEC = none ∧
    BASE32_Decode [] (BASE32_DEC ||| BASE32_DEC_NOPAD) = none ∧
    BASE58_Encode [] 100 = .invalid ∧
    BASE58_Decode [] = none ∧
    BASE64_Encode [] BASE64_STD_ENC = none ∧
    BASE64_Encode [] BASE64_URL_ENC = none ∧
    BASE64_Decode [] BASE64_STD_DEC = none ∧
    BASE64_Decode [] BASE64_URL_DEC = none ∧
    BASE85_Decode [] BASE85_STD_DEC = none ∧
    BASE85_Decode [] BASE85_EXT_DEC = none ∧
    BASE85_Decode [] BASE85_Z85_DEC = none ∧
    BASE85_Encode [] BASE85_STD_ENC = some [] ∧
    BASE85_Encode [] BASE85_EXT_ENC = some [] ∧
    BASE85_Encode [] BASE85_Z85_ENC = some [] := by decide

set_option maxRecDepth 10000 in
/-- Claim C4 (code bug evidence): the Base58 decode capacity helper is
not a safe upper bound.  For the valid 100-character input of all `'1'`s,
`BASE_GetDecodeLen` reports 81 but `BASE58_Decode` succeeds and writes
100 bytes. -/
theorem claim_C4 :
    BASE_GetDecodeLen 100 BASE58_DEC = 81 ∧
    BASE58_Decode (List.replicate 100 49) = some (List.replicate 100 0) ∧
    81 < 100 := by decide

/-- Claim C5 counterexample: a Base32 group with three non-pad symbols
(`"MMM====="`) is *not* rejected: the decode succeeds and emits one byte. -/
theorem claim_C5_counterexample :
    nonPadCount [77, 77, 77, 61, 61, 61, 61, 61] = 3 ∧
    BASE32_Decode [77, 77, 77, 61, 61, 61, 61, 61] BASE32_DEC = some [99] := by decide

/-- Claim C6: Z85 length guards.  `BASE85_Encode` in Z85 mode fails on any
input whose length is not a multiple of 4; `BASE85_Decode` in Z85 mode
fails on any input whose length is not a multiple of 5; and with the
whitespace-ignore flag, any input whose non-whitespace character count is
not a multiple of 5 (a partial trailing group) is also rejected. -/
theorem claim_C6 :
    (∀ raw : List Nat, raw.length % 4 ≠ 0 →
      BASE85_Encode raw BASE85_Z85_ENC = none) ∧
    (∀ s : List Nat, s.length % 5 ≠ 0 →
      BASE85_Decode s BASE85_Z85_DEC = none) ∧
    (∀ s : List Nat, (s.filter (fun c => !isSpaceB c)).length % 5 ≠ 0 →
      BASE85_Decode s (BASE85_Z85_DEC ||| BASE85_IGNORE_WS) = none) := by
  refine ⟨?_, ?_, ?_⟩
  · intro raw h
    have hz : BASE85_Z85_ENC &&& BASE85_Z85_ENC ≠ 0 := by decide
    simp only [BASE85_Encode]
    rw [if_pos ⟨hz, h⟩]
  · intro s h
    have hs : s ≠ [] := by
      intro he; rw [he] at h; simp at h
    have hz : BASE85_Z85_DEC &&& BASE85_Z85_DEC ≠ 0 := by decide
    simp only [BASE85_Decode]
    rw [if_neg hs, if_pos ⟨hz, h⟩]
  · intro s h
    have hs : s ≠ [] := by
      intro he; rw [he] at h; simp at h
    rw [BASE85_Decode_reduce s hs _ true false true (propext (by decide))
      (propext (by decide)) (propext (by decide))]
    by_cases hl : s.length % 5 ≠ 0
    · rw [if_pos ⟨rfl, hl⟩]
    · rw [if_neg (fun hc => hl hc.2)]
      simp only [show ((true = true)) = True from by simp, if_true, true_and,
        not_true, false_and, if_false]
      rw [b85decLoop_filter]
      rcases hres : b85decLoop false true false BASE85_Z85_REV_TABLE 33 125
          (s.filter fun c => !isSpaceB c) [] 0 0 with - | r
      · simp only [hres]
      · obtain ⟨out, value, count⟩ := r
        have hcnt := b85decLoop_z85_count false BASE85_Z85_REV_TABLE 33 125 _ _ _ _ _ hres
        simp only [hres]
        rw [if_pos (show count ≠ 0 from by simp only at hcnt; omega)]

/-- Claim C6 witness: a 1-byte Z85 encode, a 4-character Z85 decode and a
6-character whitespace-padded Z85 decode are all rejected. -/
theorem claim_C6_witness :
    BASE85_Encode [7] BASE85_Z85_ENC = none ∧
    BASE85_Decode [48, 48, 48, 48] BASE85_Z85_DEC = none ∧
    BASE85_Decode [48, 48, 48, 48, 32, 32] (BASE85_Z85_DEC ||| BASE85_IGNORE_WS) = none :=
  ⟨claim_C6.1 [7] (by decide), claim_C6.2.1 [48, 48, 48, 48] (by decide),
    claim_C6.2.2 [48, 48, 48, 48, 32, 32] (by decide)⟩

/-- Claim C7: when `BASE58_Encode` fails for capacity, the size it stores
in `*out_encoded_len` is sufficient for an immediate successful retry. -/
theorem claim_C7 : ∀ (raw : List Nat) (cap req : Nat), raw ≠ [] →
    BASE58_Encode raw cap = .tooSmall req →
    ∃ out, BASE58_Encode raw req = .ok out := by
  intro raw cap req hraw h
  simp only [BASE58_Encode, if_neg hraw] at h ⊢
  by_cases hcap : cap ≤ leadCount 0 raw +
      ((raw.length - leadCount 0 raw) * 138 / 100 + 2 -
        leadCount 0 (b58encFold
          (List.replicate ((raw.length - leadCount 0 raw) * 138 / 100 + 2) 0)
          (raw.drop (leadCount 0 raw))))
  · rw [if_pos hcap] at h
    injection h with h2
    have hni : ¬(req ≤ leadCount 0 raw +
        ((raw.length - leadCount 0 raw) * 138 / 100 + 2 -
          leadCount 0 (b58encFold
            (List.replicate ((raw.length - leadCount 0 raw) * 138 / 100 + 2) 0)
            (raw.drop (leadCount 0 raw))))) := by omega
    rw [if_neg hni]
    exact ⟨_, rfl⟩
  · rw [if_neg hcap] at h
    exact absurd h (by simp)

/-- Claim C7 witness: encoding `[0]` into capacity 0 fails demanding
capacity 2, and capacity 2 then succeeds. -/
theorem claim_C7_witness :
    ([0] : List Nat) ≠ [] ∧ ∃ out, BASE58_Encode [0] 2 = .ok out :=
  ⟨by decide, claim_C7 [0] 0 2 (by decide) (by decide)⟩

/-- Claim C8: Base58 leading-zero preservation on the concrete vector:
`[0x00, 0x00, 0x01]` encodes (with ample capacity) to `"112"` — two
leading `'1'`s then the digit-1 character `'2'` — and `"112"` decodes
back to `[0x00, 0x00, 0x01]`. -/
theorem claim_C8 :
    BASE58_Encode [0, 0, 1] 10 = .ok [49, 49, 50] ∧
    BASE58_Decode [49, 49, 50] = some [0, 0, 1] := by decide

/-- Claim C9 counterexample: decoding the single whitespace character
`" "` with `BASE85_STD_DEC ||| BASE85_IGNORE_WS` succeeds with zero
bytes, while the same input with all whitespace removed (the empty
string) is rejected — so whitespace-skipping is not always equivalent to
decoding the stripped input. -/
theorem claim_C9_counterexample :
    BASE85_Decode [32] (BASE85_STD_DEC ||| BASE85_IGNORE_WS) = some [] ∧
    ([32] : List Nat).filter (fun c => !isSpaceB c) = [] ∧
    BASE85_Decode (([32] : List Nat).filter (fun c => !isSpaceB c))
      (BASE85_STD_DEC ||| BASE85_IGNORE_WS) = none := by decide

/-- Claim C10: the Ascii85 decoder accepts every complete 5-character
group of in-range characters (`'!'..'u'`), even when its base-85 value
exceeds `2^32 - 1`: the accumulator wraps modulo `2^32` and the four
wrapped bytes are emitted. -/
theorem claim_C10 (c1 c2 c3 c4 c5 : Nat)
    (h1 : 33 ≤ c1 ∧ c1 ≤ 117) (h2 : 33 ≤ c2 ∧ c2 ≤ 117)
    (h3 : 33 ≤ c3 ∧ c3 ≤ 117) (h4 : 33 ≤ c4 ∧ c4 ≤ 117)
    (h5 : 33 ≤ c5 ∧ c5 ≤ 117) :
    BASE85_Decode [c1, c2, c3, c4, c5] BASE85_STD_DEC =
      some (be32 ((((((c1 - 33) * 85 + (c2 - 33)) * 85 + (c3 - 33)) * 85 +
        (c4 - 33)) * 85 + (c5 - 33)) % 2 ^ 32)) := by
  rw [BASE85_Decode_reduce _ (by simp) _ false false false (propext (by decide))
    (propext (by decide)) (propext (by decide))]
  simp only [Bool.false_eq_true, false_and, if_false, not_false_iff, true_and]
  rw [b85decLoop_a85_step false c1 _ _ _ _ h1.1 h1.2 (by omega),
    b85decLoop_a85_step false c2 _ _ _ _ h2.1 h2.2 (by omega),
    b85decLoop_a85_step false c3 _ _ _ _ h3.1 h3.2 (by omega),
    b85decLoop_a85_step false c4 _ _ _ _ h4.1 h4.2 (by omega),
    b85decLoop_a85_step5 false c5 _ _ _ h5.1 h5.2]
  simp only [b85decLoop, List.nil_append]
  rw [if_neg (by simp)]
  simp only [Option.some.injEq]
  congr 1
  omega

/-- Claim C10 witness: the group `"uuuuu"`, whose value `85^5 - 1`
exceeds `2^32 - 1`, decodes successfully to the four wrapped bytes. -/
theorem claim_C10_witness :
    ((33 ≤ 117 ∧ 117 ≤ 117) ∧
      2 ^ 32 < ((((117 - 33) * 85 + (117 - 33)) * 85 + (117 - 33)) * 85 +
        (117 - 33)) * 85 + (117 - 33)) ∧
    BASE85_Decode [117, 117, 117, 117, 117] BASE85_STD_DEC =
      some (be32 ((((((117 - 33) * 85 + (117 - 33)) * 85 + (117 - 33)) * 85 +
        (117 - 33)) * 85 + (117 - 33)) % 2 ^ 32)) :=
  ⟨⟨⟨by decide, by decide⟩, by decide⟩,
    claim_C10 117 117 117 117 117 ⟨by decide, by decide⟩ ⟨by decide, by decide⟩
      ⟨by decide, by decide⟩ ⟨by decide, by decide⟩ ⟨by decide, by decide⟩⟩


/-- Claim C5 (amended): for an 8-character Base32 group of valid symbols
or pads, the decode succeeds and the number of output bytes is the
threshold function of the non-pad symbol count: 2→1, 4→2, 5→3, 7→4, 8→5
as claimed — but the remaining counts are **not** format errors: 0 and 1
give 0 bytes, 3 gives 1 byte, 6 gives 3 bytes. -/
theorem claim_C5 (c1 c2 c3 c4 c5 c6 c7 c8 : Nat)
    (hv : ∀ c ∈ [c1, c2, c3, c4, c5, c6, c7, c8], 0 ≤ b32sym c) :
    (∃ out, BASE32_Decode [c1, c2, c3, c4, c5, c6, c7, c8] BASE32_DEC = some out ∧
      out.length = b32groupLen (nonPadCount [c1, c2, c3, c4, c5, c6, c7, c8])) ∧
    (b32groupLen 2 = 1 ∧ b32groupLen 4 = 2 ∧ b32groupLen 5 = 3 ∧
      b32groupLen 7 = 4 ∧ b32groupLen 8 = 5) ∧
    (b32groupLen 0 = 0 ∧ b32groupLen 1 = 0 ∧ b32groupLen 3 = 1 ∧
      b32groupLen 6 = 3) := by
  refine ⟨?_, by decide, by decide⟩
  have e1 : BASE32_DEC &&& BASE32_DEC_NOPAD = 0 := by decide
  have g1 : ¬(b32sym c1 < 0) := not_lt.mpr (hv c1 (by simp))
  have g2 : ¬(b32sym c2 < 0) := not_lt.mpr (hv c2 (by simp))
  have g3 : ¬(b32sym c3 < 0) := not_lt.mpr (hv c3 (by simp))
  have g4 : ¬(b32sym c4 < 0) := not_lt.mpr (hv c4 (by simp))
  have g5 : ¬(b32sym c5 < 0) := not_lt.mpr (hv c5 (by simp))
  have g6 : ¬(b32sym c6 < 0) := not_lt.mpr (hv c6 (by simp))
  have g7 : ¬(b32sym c7 < 0) := not_lt.mpr (hv c7 (by simp))
  have g8 : ¬(b32sym c8 < 0) := not_lt.mpr (hv c8 (by simp))
  simp only [BASE32_Decode, e1]
  rw [if_neg (show ¬([c1, c2, c3, c4, c5, c6, c7, c8] : List Nat) = [] from by simp)]
  rw [if_neg (show ¬(¬((0 : Nat) ≠ 0) ∧
    ([c1, c2, c3, c4, c5, c6, c7, c8] : List Nat).length % 8 ≠ 0) from by simp)]
  simp only [b32decLoop, b32group]
  rw [if_neg (show ¬(b32sym c1 < 0 ∨ b32sym c2 < 0 ∨ b32sym c3 < 0 ∨
    b32sym c4 < 0 ∨ b32sym c5 < 0 ∨ b32sym c6 < 0 ∨ b32sym c7 < 0 ∨
    b32sym c8 < 0) from by
      simp only [not_or]
      exact ⟨g1, g2, g3, g4, g5, g6, g7, g8⟩)]
  refine ⟨_, rfl, ?_⟩
  rw [List.append_nil, b32bytes_length]
  simp only [nonPadCount]
  congr 1
  generalize (if c1 ≠ 61 then 1 else 0) = v1
  generalize (if c2 ≠ 61 then 1 else 0) = v2
  generalize (if c3 ≠ 61 then 1 else 0) = v3
  generalize (if c4 ≠ 61 then 1 else 0) = v4
  generalize (if c5 ≠ 61 then 1 else 0) = v5
  generalize (if c6 ≠ 61 then 1 else 0) = v6
  generalize (if c7 ≠ 61 then 1 else 0) = v7
  generalize (if c8 ≠ 61 then 1 else 0) = v8
  omega

/-- Claim C5 witness: the group `"MY======"` has 2 non-pad symbols and
decodes to 1 byte. -/
theorem claim_C5_witness :
    (∀ c ∈ ([77, 89, 61, 61, 61, 61, 61, 61] : List Nat), 0 ≤ b32sym c) ∧
    (∃ out, BASE32_Decode [77, 89, 61, 61, 61, 61, 61, 61] BASE32_DEC = some out ∧
      out.length = b32groupLen (nonPadCount [77, 89, 61, 61, 61, 61, 61, 61])) :=
  ⟨by decide, (claim_C5 77 89 61 61 61 61 61 61 (by decide)).1⟩

/-- Claim C9 (amended): for each decode variant, decoding with the
whitespace-ignore flag equals decoding the whitespace-stripped input,
provided the stripped input is non-empty, and — for Z85 — the whitespace
character count is a multiple of 5 (the raw-length multiple-of-5 check
runs before whitespace is skipped). -/
theorem claim_C9 :
    (∀ s : List Nat, s.filter (fun c => !isSpaceB c) ≠ [] →
      BASE85_Decode s (BASE85_STD_DEC ||| BASE85_IGNORE_WS) =
      BASE85_Decode (s.filter (fun c => !isSpaceB c))
        (BASE85_STD_DEC ||| BASE85_IGNORE_WS)) ∧
    (∀ s : List Nat, s.filter (fun c => !isSpaceB c) ≠ [] →
      BASE85_Decode s (BASE85_EXT_DEC ||| BASE85_IGNORE_WS) =
      BASE85_Decode (s.filter (fun c => !isSpaceB c))
        (BASE85_EXT_DEC ||| BASE85_IGNORE_WS)) ∧
    (∀ s : List Nat, s.filter (fun c => !isSpaceB c) ≠ [] →
      (s.filter (fun c => isSpaceB c)).length % 5 = 0 →
      BASE85_Decode s (BASE85_Z85_DEC ||| BASE85_IGNORE_WS) =
      BASE85_Decode (s.filter (fun c => !isSpaceB c))
        (BASE85_Z85_DEC ||| BASE85_IGNORE_WS)) := by
  refine ⟨?_, ?_, ?_⟩
  · intro s hf
    exact b85decode_ws_eq _ false false (propext (by decide)) (propext (by decide))
      (propext (by decide)) s hf (by simp)
  · intro s hf
    exact b85decode_ws_eq _ false true (propext (by decide)) (propext (by decide))
      (propext (by decide)) s hf (by simp)
  · intro s hf hws
    refine b85decode_ws_eq _ true false (propext (by decide)) (propext (by decide))
      (propext (by decide)) s hf (fun _ => ?_)
    have hsplit := length_filter_not_add (fun c => isSpaceB c) s
    omega

/-- Claim C9 witness: the three variants agree with stripped-input
decoding on concrete whitespace-bearing inputs. -/
theorem claim_C9_witness :
    (([122, 32] : List Nat).filter (fun c => !isSpaceB c) ≠ [] ∧
      BASE85_Decode [122, 32] (BASE85_STD_DEC ||| BASE85_IGNORE_WS) =
      BASE85_Decode (([122, 32] : List Nat).filter (fun c => !isSpaceB c))
        (BASE85_STD_DEC ||| BASE85_IGNORE_WS)) ∧
    (([121, 10] : List Nat).filter (fun c => !isSpaceB c) ≠ [] ∧
      BASE85_Decode [121, 10] (BASE85_EXT_DEC ||| BASE85_IGNORE_WS) =
      BASE85_Decode (([121, 10] : List Nat).filter (fun c => !isSpaceB c))
        (BASE85_EXT_DEC ||| BASE85_IGNORE_WS)) ∧
    (([32, 32, 32, 32, 32, 48, 48, 48, 48, 48] : List Nat).filter
        (fun c => !isSpaceB c) ≠ [] ∧
      BASE85_Decode [32, 32, 32, 32, 32, 48, 48, 48, 48, 48]
        (BASE85_Z85_DEC ||| BASE85_IGNORE_WS) =
      BASE85_Decode (([32, 32, 32, 32, 32, 48, 48, 48, 48, 48] : List Nat).filter
        (fun c => !isSpaceB c)) (BASE85_Z85_DEC ||| BASE85_IGNORE_WS)) :=
  ⟨⟨by decide, claim_C9.1 [122, 32] (by decide)⟩,
   ⟨by decide, claim_C9.2.1 [121, 10] (by decide)⟩,
   ⟨by decide, claim_C9.2.2 [32, 32, 32, 32, 32, 48, 48, 48, 48, 48]
      (by decide) (by decide)⟩⟩

end TinyCBase
